import Mathlib

/-!
netopeer2: ietf-netconf-monitoring statistics (src/netconf_monitoring.c)

A shallow embedding of the session-statistics registry of the NETCONF server
and of the part of the operational-data callback that renders it.

Conventions of the embedding

* The global `struct ncm stats` is passed explicitly.  The server log is kept
  next to it in `World`, because the logging macros (`EINT`, `EMEM`, `WRN`,
  `ERR`) write there and nowhere else.
* `uint32_t` values are natural numbers; every `++` and `--` is reduced
  modulo `2^32` at the place where the C code performs it.
* The two heap arrays `stats.sessions` and `stats.session_stats` are lists
  whose length is the number of allocated slots; `session_count` is the
  separate logical length kept by the code.
* A read or write outside the allocated slots, and an attempt to take the
  mutex while it is held, have no defined result: the operation yields a
  `Fault` instead of a state.
-/

namespace Ncm

/-! ## Data model -/

/-- Modelled from the spec: the transport kind of a session handle
(`NC_TRANSPORT_IMPL` of libnetconf2, declared outside this repository). -/
inductive NC_TRANSPORT_IMPL where
  | NC_TI_NONE
  | NC_TI_FD
  | NC_TI_LIBSSH
  | NC_TI_OPENSSL
  deriving DecidableEq, Repr

/-- Modelled from the spec: the termination reason of a session handle
(`NC_SESSION_TERM_REASON` of libnetconf2); `NC_SESSION_TERM_NONE` is the value
zero, meaning that no reason has been recorded. -/
inductive NC_SESSION_TERM_REASON where
  | NC_SESSION_TERM_NONE
  | NC_SESSION_TERM_CLOSED
  | NC_SESSION_TERM_KILLED
  | NC_SESSION_TERM_DROPPED
  | NC_SESSION_TERM_TIMEOUT
  | NC_SESSION_TERM_BADHELLO
  | NC_SESSION_TERM_OTHER
  deriving DecidableEq, Repr

/-- Modelled from the spec: the session handle `struct nc_session`, reduced to
the attributes the monitoring code reads through the `nc_session_get_*`
accessors: id, transport kind, termination reason, username, source host and
start time. -/
structure nc_session where
  id : Nat
  ti : NC_TRANSPORT_IMPL
  term_reason : NC_SESSION_TERM_REASON
  username : String
  host : String
  start_time : Nat
  deriving DecidableEq, Repr

/-- Modelled from the spec: the Counter Set (`struct ncm_session_stats` of the
header netconf_monitoring.h, which is not among the sources): four unsigned
32-bit counters. -/
structure ncm_session_stats where
  in_rpcs : Nat
  in_bad_rpcs : Nat
  out_rpc_errors : Nat
  out_notifications : Nat
  deriving DecidableEq, Repr

/-- Modelled from the spec: the process-wide monitoring state (`struct ncm` of
the header netconf_monitoring.h), with the fields the code of
netconf_monitoring.c uses.  The field `lock` is true while the mutex is held. -/
structure ncm where
  sessions : List nc_session
  session_stats : List ncm_session_stats
  session_count : Nat
  netconf_start_time : Nat
  in_bad_hellos : Nat
  in_sessions : Nat
  dropped_sessions : Nat
  global_stats : ncm_session_stats
  lock : Bool
  deriving DecidableEq, Repr

/-- Modelled from the spec: the messages of the logging macros used by
netconf_monitoring.c.  `EINT` and `EMEM` log an internal error and a failed
allocation, and do nothing else. -/
inductive LogMsg where
  | EINT
  | EMEM
  | WRN_not_monitored (id : Nat)
  | WRN_lock_unknown (ds : String)
  | ERR_unsupported_transport
  deriving DecidableEq, Repr

/-- The monitoring state together with the server log. -/
structure World where
  stats : ncm
  log : List LogMsg
  deriving DecidableEq, Repr

/-- Outcomes that are not a state: an access outside the allocated slots of an
array, or a mutex acquisition that can never succeed. -/
inductive Fault where
  | out_of_bounds
  | blocked
  deriving DecidableEq, Repr

/-- The build-time switches `NC_ENABLED_SSH` and `NC_ENABLED_TLS`. -/
structure Build where
  NC_ENABLED_SSH : Bool
  NC_ENABLED_TLS : Bool
  deriving DecidableEq, Repr

/-- What the allocator does during one call of `ncm_session_add`: whether each
of the two `realloc` calls returns storage, and the content of a slot that
`realloc` hands out uninitialised. -/
structure AllocEnv where
  sessions_ok : Bool
  session_stats_ok : Bool
  junk_session : nc_session
  junk_stats : ncm_session_stats
  deriving DecidableEq, Repr

/-- The four counters of a Counter Set, one per counter recorder. -/
inductive Counter where
  | in_rpcs
  | in_bad_rpcs
  | out_rpc_errors
  | out_notifications
  deriving DecidableEq, Repr

/-! ## Machine arithmetic and memory primitives -/

/-- The C expression `++x` on a `uint32_t`. -/
def u32_inc (x : Nat) : Nat := (x + 1) % 4294967296

/-- The C expressions `--x` and `x - 1` on a `uint32_t`: zero wraps around to
`2^32 - 1`. -/
def u32_dec (x : Nat) : Nat := if x = 0 then 4294967295 else (x - 1) % 4294967296

/-- A Counter Set with all four counters zero (the result of `memset`). -/
def ncm_session_stats.zero : ncm_session_stats :=
  { in_rpcs := 0, in_bad_rpcs := 0, out_rpc_errors := 0, out_notifications := 0 }

/-- Reading one counter of a Counter Set. -/
def ncm_session_stats.get (c : ncm_session_stats) : Counter → Nat
  | Counter.in_rpcs => c.in_rpcs
  | Counter.in_bad_rpcs => c.in_bad_rpcs
  | Counter.out_rpc_errors => c.out_rpc_errors
  | Counter.out_notifications => c.out_notifications

/-- The statement `++c.f` for the counter `f` of a Counter Set. -/
def ncm_session_stats.incr (c : ncm_session_stats) : Counter → ncm_session_stats
  | Counter.in_rpcs => { c with in_rpcs := u32_inc c.in_rpcs }
  | Counter.in_bad_rpcs => { c with in_bad_rpcs := u32_inc c.in_bad_rpcs }
  | Counter.out_rpc_errors => { c with out_rpc_errors := u32_inc c.out_rpc_errors }
  | Counter.out_notifications => { c with out_notifications := u32_inc c.out_notifications }

/-- A successful `realloc` to `n` slots: the old slots are kept up to the new
size, slots beyond the old size hold `junk`. -/
def realloc {α : Type} (xs : List α) (n : Nat) (junk : α) : List α :=
  (xs ++ List.replicate (n - xs.length) junk).take n

/-- The call `memmove(&xs[dst], &xs[src], n * sizeof *xs)`. -/
def memmove {α : Type} (xs : List α) (dst src n : Nat) : Except Fault (List α) :=
  if src + n ≤ xs.length ∧ dst + n ≤ xs.length then
    Except.ok (xs.take dst ++ (xs.drop src).take n ++ xs.drop (dst + n))
  else
    Except.error Fault.out_of_bounds

/-- Taking the mutex: succeeds only when nobody holds it. -/
def pthread_mutex_lock (w : World) : Except Fault World :=
  if w.stats.lock then Except.error Fault.blocked
  else Except.ok { w with stats := { w.stats with lock := true } }

/-- Releasing the mutex. -/
def pthread_mutex_unlock (w : World) : World :=
  { w with stats := { w.stats with lock := false } }

/-- Appending one message to the server log. -/
def World.logMsg (w : World) (m : LogMsg) : World :=
  { w with log := w.log ++ [m] }

/-! ## The functions of netconf_monitoring.c -/

/-- The state after `ncm_init` at time `now`: the zero-initialised global
`stats` with the start time set and the mutex initialised. -/
def ncm_init (now : Nat) : World :=
  { stats :=
      { sessions := [], session_stats := [], session_count := 0,
        netconf_start_time := now, in_bad_hellos := 0, in_sessions := 0,
        dropped_sessions := 0, global_stats := ncm_session_stats.zero, lock := false },
    log := [] }

/-- The loop of `find_session_idx`: `i` is the loop variable, the last
argument the number of iterations left before `i` reaches `session_count`. -/
def find_session_idx_loop (sessions : List nc_session) (sid : Nat) :
    Nat → Nat → Except Fault (Option Nat)
  | _, 0 => Except.ok none
  | i, r + 1 =>
    match sessions[i]? with
    | none => Except.error Fault.out_of_bounds
    | some x =>
      if x.id = sid then Except.ok (some i)
      else find_session_idx_loop sessions sid (i + 1) r

/-- The function `find_session_idx`: the first index whose session has the id
of `session`; when there is none, `EINT` is logged and 0 is returned. -/
def find_session_idx (session : nc_session) (w : World) : Except Fault (Nat × World) :=
  match find_session_idx_loop w.stats.sessions session.id 0 w.stats.session_count with
  | Except.error e => Except.error e
  | Except.ok (some i) => Except.ok (i, w)
  | Except.ok none => Except.ok (0, w.logMsg LogMsg.EINT)

/-- The function `ncm_is_monitored` under the build switches `b`. -/
def ncm_is_monitored (b : Build) (session : nc_session) : Bool :=
  match session.ti with
  | NC_TRANSPORT_IMPL.NC_TI_LIBSSH => b.NC_ENABLED_SSH
  | NC_TRANSPORT_IMPL.NC_TI_OPENSSL => b.NC_ENABLED_TLS
  | _ => false

/-- The common body of the four counter recorders, for the counter `f`:
`++stats.session_stats[find_session_idx(session)].f; ++stats.global_stats.f;`
between lock and unlock. -/
def ncm_session_count (f : Counter) (b : Build) (session : nc_session) (w : World) :
    Except Fault World :=
  if ncm_is_monitored b session = false then Except.ok w
  else
    match pthread_mutex_lock w with
    | Except.error e => Except.error e
    | Except.ok w1 =>
      match find_session_idx session w1 with
      | Except.error e => Except.error e
      | Except.ok (idx, w2) =>
        match w2.stats.session_stats[idx]? with
        | none => Except.error Fault.out_of_bounds
        | some c =>
          Except.ok (pthread_mutex_unlock
            { w2 with stats :=
                { w2.stats with
                  session_stats := w2.stats.session_stats.set idx (c.incr f),
                  global_stats := w2.stats.global_stats.incr f } })

/-- The function `ncm_session_rpc`. -/
def ncm_session_rpc (b : Build) (session : nc_session) (w : World) : Except Fault World :=
  ncm_session_count Counter.in_rpcs b session w

/-- The function `ncm_session_bad_rpc`. -/
def ncm_session_bad_rpc (b : Build) (session : nc_session) (w : World) : Except Fault World :=
  ncm_session_count Counter.in_bad_rpcs b session w

/-- The function `ncm_session_rpc_reply_error`. -/
def ncm_session_rpc_reply_error (b : Build) (session : nc_session) (w : World) :
    Except Fault World :=
  ncm_session_count Counter.out_rpc_errors b session w

/-- The function `ncm_session_notification`. -/
def ncm_session_notification (b : Build) (session : nc_session) (w : World) :
    Except Fault World :=
  ncm_session_count Counter.out_notifications b session w

/-- The function `ncm_session_add`; `a` says what the two `realloc` calls do. -/
def ncm_session_add (b : Build) (a : AllocEnv) (session : nc_session) (w : World) :
    Except Fault World :=
  if ncm_is_monitored b session = false then
    Except.ok (w.logMsg (LogMsg.WRN_not_monitored session.id))
  else
    match pthread_mutex_lock w with
    | Except.error e => Except.error e
    | Except.ok w1 =>
      let st1 : ncm := { w1.stats with in_sessions := u32_inc w1.stats.in_sessions }
      let st2 : ncm := { st1 with session_count := u32_inc st1.session_count }
      if a.sessions_ok = false then
        Except.ok (World.logMsg { w1 with stats := st2 } LogMsg.EMEM)
      else
        let st3 : ncm :=
          { st2 with sessions := realloc st2.sessions st2.session_count a.junk_session }
        if a.session_stats_ok = false then
          Except.ok (World.logMsg { w1 with stats := st3 } LogMsg.EMEM)
        else
          let st4 : ncm :=
            { st3 with
              session_stats := realloc st3.session_stats st3.session_count a.junk_stats }
          let last := u32_dec st4.session_count
          if last < st4.sessions.length ∧ last < st4.session_stats.length then
            Except.ok (pthread_mutex_unlock
              { w1 with stats :=
                  { st4 with
                    sessions := st4.sessions.set last session,
                    session_stats := st4.session_stats.set last ncm_session_stats.zero } })
          else
            Except.error Fault.out_of_bounds

/-- The function `ncm_session_del`. -/
def ncm_session_del (b : Build) (session : nc_session) (w : World) : Except Fault World :=
  if ncm_is_monitored b session = false then Except.ok w
  else
    match pthread_mutex_lock w with
    | Except.error e => Except.error e
    | Except.ok w1 =>
      let w2 : World :=
        if session.term_reason = NC_SESSION_TERM_REASON.NC_SESSION_TERM_NONE then
          w1.logMsg LogMsg.EINT
        else w1
      let w3 : World :=
        if session.term_reason ≠ NC_SESSION_TERM_REASON.NC_SESSION_TERM_CLOSED then
          { w2 with stats :=
              { w2.stats with dropped_sessions := u32_inc w2.stats.dropped_sessions } }
        else w2
      match find_session_idx session w3 with
      | Except.error e => Except.error e
      | Except.ok (i, w4) =>
        let cnt := u32_dec w4.stats.session_count
        let w5 : World := { w4 with stats := { w4.stats with session_count := cnt } }
        if cnt ≠ 0 ∧ i < cnt then
          match memmove w5.stats.sessions i (i + 1) (cnt - i) with
          | Except.error e => Except.error e
          | Except.ok ss =>
            match memmove w5.stats.session_stats i (i + 1) (cnt - i) with
            | Except.error e => Except.error e
            | Except.ok cs =>
              Except.ok (pthread_mutex_unlock
                { w5 with stats := { w5.stats with sessions := ss, session_stats := cs } })
        else
          Except.ok (pthread_mutex_unlock w5)

/-- The function `ncm_bad_hello`. -/
def ncm_bad_hello (b : Build) (session : nc_session) (w : World) : Except Fault World :=
  if ncm_is_monitored b session = false then Except.ok w
  else
    match pthread_mutex_lock w with
    | Except.error e => Except.error e
    | Except.ok w1 =>
      Except.ok (pthread_mutex_unlock
        { w1 with stats := { w1.stats with in_bad_hellos := u32_inc w1.stats.in_bad_hellos } })

/-- The function `ncm_session_get_notification`: the returned count and the
state after the call. -/
def ncm_session_get_notification (b : Build) (session : nc_session) (w : World) :
    Except Fault (Nat × World) :=
  if ncm_is_monitored b session = false then Except.ok (0, w)
  else
    match pthread_mutex_lock w with
    | Except.error e => Except.error e
    | Except.ok w1 =>
      match find_session_idx session w1 with
      | Except.error e => Except.error e
      | Except.ok (idx, w2) =>
        match w2.stats.session_stats[idx]? with
        | none => Except.error Fault.out_of_bounds
        | some c => Except.ok (c.out_notifications, pthread_mutex_unlock w2)

/-! ## Sequences of recorder calls -/

/-- One call of an Event Recorder by the protocol layer.  A call of
`ncm_session_add` carries what the allocator does during it. -/
inductive Event where
  | rpc (session : nc_session)
  | bad_rpc (session : nc_session)
  | rpc_reply_error (session : nc_session)
  | notification (session : nc_session)
  | session_add (a : AllocEnv) (session : nc_session)
  | session_del (session : nc_session)
  | bad_hello (session : nc_session)
  | get_notification (session : nc_session)
  deriving DecidableEq, Repr

/-- Performing one recorder call. -/
def Event.apply (b : Build) : Event → World → Except Fault World
  | Event.rpc s, w => ncm_session_rpc b s w
  | Event.bad_rpc s, w => ncm_session_bad_rpc b s w
  | Event.rpc_reply_error s, w => ncm_session_rpc_reply_error b s w
  | Event.notification s, w => ncm_session_notification b s w
  | Event.session_add a s, w => ncm_session_add b a s w
  | Event.session_del s, w => ncm_session_del b s w
  | Event.bad_hello s, w => ncm_bad_hello b s w
  | Event.get_notification s, w =>
    match ncm_session_get_notification b s w with
    | Except.error e => Except.error e
    | Except.ok (_, w1) => Except.ok w1

/-- Performing a sequence of recorder calls one after the other. -/
def run_events (b : Build) : List Event → World → Except Fault World
  | [], w => Except.ok w
  | e :: es, w =>
    match e.apply b w with
    | Except.error f => Except.error f
    | Except.ok w1 => run_events b es w1

/-- Whether an event is a call of the recorder of counter `f` for a monitored
session. -/
def Event.counts (b : Build) (f : Counter) : Event → Bool
  | Event.rpc s => decide (f = Counter.in_rpcs) && ncm_is_monitored b s
  | Event.bad_rpc s => decide (f = Counter.in_bad_rpcs) && ncm_is_monitored b s
  | Event.rpc_reply_error s => decide (f = Counter.out_rpc_errors) && ncm_is_monitored b s
  | Event.notification s => decide (f = Counter.out_notifications) && ncm_is_monitored b s
  | _ => false

/-- The number of calls in a sequence to the recorder of counter `f` whose
session is monitored. -/
def count_calls (b : Build) (f : Counter) (evs : List Event) : Nat :=
  evs.countP (Event.counts b f)

/-! ## The operational-data callback -/

/-- Modelled from the spec: a node of the data tree assembled through the
tree-building library (libyang): an inner container, a list instance with its
key values, or a leaf with its text value. -/
inductive lyd_node where
  | inner (name : String) (children : List lyd_node)
  | list (name : String) (keys : List String) (children : List lyd_node)
  | term (name : String) (value : String)

/-- The name of a node. -/
def lyd_node.name : lyd_node → String
  | lyd_node.inner n _ => n
  | lyd_node.list n _ _ => n
  | lyd_node.term n _ => n

/-- The children of a node, in the order in which they were added. -/
def lyd_node.children : lyd_node → List lyd_node
  | lyd_node.inner _ cs => cs
  | lyd_node.list _ _ cs => cs
  | lyd_node.term _ _ => []

/-- The key values of a list instance. -/
def lyd_node.keys : lyd_node → List String
  | lyd_node.list _ ks _ => ks
  | _ => []

/-- The first child with the given name. -/
def lyd_node.child (name : String) (n : lyd_node) : Option lyd_node :=
  n.children.find? (fun c => c.name == name)

/-- The text of the first leaf child with the given name. -/
def lyd_node.leaf (name : String) (n : lyd_node) : Option String :=
  match n.child name with
  | some (lyd_node.term _ v) => some v
  | _ => none

/-- Modelled from the spec: the answer of the datastore client to
`sr_get_lock` for one datastore. -/
structure sr_lock_info where
  rc_ok : Bool
  is_locked : Bool
  nc_id : Nat
  ts : Nat

/-- Modelled from the spec: the fields of a loaded module (`struct lys_module`)
read by the callback. -/
structure lys_module where
  name : String
  revision : Option String
  ns : String

/-- What the collaborators of the callback answer during one call. -/
structure RenderEnv where
  lyd_new_path_ok : Bool
  cpblts : Option (List String)
  lock_running : sr_lock_info
  lock_startup : sr_lock_info
  lock_candidate : sr_lock_info
  modules : List lys_module
  lyd_validate_ok : Bool
  nc_time2datetime : Nat → String

/-- The conversion `sprintf(buf, "%u", x)` of a `uint32_t`. -/
def sprintf_u (x : Nat) : String := toString (x % 4294967296)

/-- The function `ncm_data_add_ds_lock`: the "datastore" list instance it adds
to the parent. -/
def ncm_data_add_ds_lock (env : RenderEnv) (ds_str : String) (info : sr_lock_info)
    (w : World) : lyd_node × World :=
  if info.rc_ok = false then
    (lyd_node.list "datastore" [ds_str] [], w.logMsg (LogMsg.WRN_lock_unknown ds_str))
  else if info.is_locked then
    (lyd_node.list "datastore" [ds_str]
      [lyd_node.inner "locks"
        [lyd_node.inner "global-lock"
          [lyd_node.term "locked-by-session" (sprintf_u info.nc_id),
           lyd_node.term "locked-time" (env.nc_time2datetime info.ts)]]], w)
  else
    (lyd_node.list "datastore" [ds_str] [], w)

/-- The two "schema" list instances emitted for one loaded module. -/
def schema_nodes (m : lys_module) : List lyd_node :=
  [lyd_node.list "schema" [m.name, m.revision.getD "", "yang"]
    [lyd_node.term "namespace" m.ns, lyd_node.term "location" "NETCONF"],
   lyd_node.list "schema" [m.name, m.revision.getD "", "yin"]
    [lyd_node.term "namespace" m.ns, lyd_node.term "location" "NETCONF"]]

/-- The `switch` on the transport kind in the session loop: the text of the
"transport" leaf, or nothing for the `default` branch. -/
def transport_label (b : Build) : NC_TRANSPORT_IMPL → Option String
  | NC_TRANSPORT_IMPL.NC_TI_LIBSSH => if b.NC_ENABLED_SSH then some "netconf-ssh" else none
  | NC_TRANSPORT_IMPL.NC_TI_OPENSSL => if b.NC_ENABLED_TLS then some "netconf-tls" else none
  | _ => none

/-- The "session" list instance emitted for one registry entry. -/
def session_node (env : RenderEnv) (label : String) (s : nc_session)
    (c : ncm_session_stats) : lyd_node :=
  lyd_node.list "session" [sprintf_u s.id]
    [lyd_node.term "transport" label,
     lyd_node.term "username" s.username,
     lyd_node.term "source-host" s.host,
     lyd_node.term "login-time" (env.nc_time2datetime s.start_time),
     lyd_node.term "in-rpcs" (sprintf_u c.in_rpcs),
     lyd_node.term "in-bad-rpcs" (sprintf_u c.in_bad_rpcs),
     lyd_node.term "out-rpc-errors" (sprintf_u c.out_rpc_errors),
     lyd_node.term "out-notifications" (sprintf_u c.out_notifications)]

/-- How the session loop of the callback ends. -/
inductive SessionLoop where
  | fault (f : Fault)
  | unsupported
  | rows (l : List lyd_node)

/-- The session loop of the callback: `i` is the loop variable, the last
argument the number of iterations left before `i` reaches `session_count`. -/
def session_loop (b : Build) (env : RenderEnv) (sessions : List nc_session)
    (session_stats : List ncm_session_stats) : Nat → Nat → SessionLoop
  | _, 0 => SessionLoop.rows []
  | i, r + 1 =>
    match sessions[i]? with
    | none => SessionLoop.fault Fault.out_of_bounds
    | some s =>
      match transport_label b s.ti with
      | none => SessionLoop.unsupported
      | some label =>
        match session_stats[i]? with
        | none => SessionLoop.fault Fault.out_of_bounds
        | some c =>
          match session_loop b env sessions session_stats (i + 1) r with
          | SessionLoop.rows rest => SessionLoop.rows (session_node env label s c :: rest)
          | other => other

/-- The "statistics" container emitted by the callback. -/
def statistics_node (env : RenderEnv) (s : ncm) : lyd_node :=
  lyd_node.inner "statistics"
    [lyd_node.term "netconf-start-time" (env.nc_time2datetime s.netconf_start_time),
     lyd_node.term "in-bad-hellos" (sprintf_u s.in_bad_hellos),
     lyd_node.term "in-sessions" (sprintf_u s.in_sessions),
     lyd_node.term "dropped-sessions" (sprintf_u s.dropped_sessions),
     lyd_node.term "in-rpcs" (sprintf_u s.global_stats.in_rpcs),
     lyd_node.term "in-bad-rpcs" (sprintf_u s.global_stats.in_bad_rpcs),
     lyd_node.term "out-rpc-errors" (sprintf_u s.global_stats.out_rpc_errors),
     lyd_node.term "out-notifications" (sprintf_u s.global_stats.out_notifications)]

/-- The function `np2srv_ncm_oper_cb`: the tree handed back with `SR_ERR_OK`,
or nothing for `SR_ERR_INTERNAL`, together with the state after the call. -/
def np2srv_ncm_oper_cb (b : Build) (env : RenderEnv) (w : World) :
    Except Fault (Option lyd_node × World) :=
  if env.lyd_new_path_ok = false then Except.ok (none, w)
  else
    match env.cpblts with
    | none => Except.ok (none, w)
    | some caps =>
      let capabilities :=
        lyd_node.inner "capabilities" (caps.map (fun c => lyd_node.term "capability" c))
      let r1 := ncm_data_add_ds_lock env "running" env.lock_running w
      let r2 := ncm_data_add_ds_lock env "startup" env.lock_startup r1.2
      let r3 := ncm_data_add_ds_lock env "candidate" env.lock_candidate r2.2
      let datastores := lyd_node.inner "datastores" [r1.1, r2.1, r3.1]
      let schemas := lyd_node.inner "schemas" (env.modules.flatMap schema_nodes)
      match pthread_mutex_lock r3.2 with
      | Except.error e => Except.error e
      | Except.ok w1 =>
        let finish (sessions : List lyd_node) : Except Fault (Option lyd_node × World) :=
          let root := lyd_node.inner "netconf-state"
            ([capabilities, datastores, schemas] ++ sessions ++ [statistics_node env w1.stats])
          let w2 := pthread_mutex_unlock w1
          if env.lyd_validate_ok = false then Except.ok (none, w2)
          else Except.ok (some root, w2)
        if w1.stats.session_count ≠ 0 then
          match session_loop b env w1.stats.sessions w1.stats.session_stats 0
              w1.stats.session_count with
          | SessionLoop.fault f => Except.error f
          | SessionLoop.unsupported =>
            Except.ok (none, pthread_mutex_unlock (w1.logMsg LogMsg.ERR_unsupported_transport))
          | SessionLoop.rows rows => finish [lyd_node.inner "sessions" rows]
        else
          finish []

/-! ## Well-formed states and the registry view -/

/-- All four counters of a Counter Set are values of type `uint32_t`. -/
def ncm_session_stats.in_range (c : ncm_session_stats) : Prop :=
  c.in_rpcs < 4294967296 ∧ c.in_bad_rpcs < 4294967296 ∧
  c.out_rpc_errors < 4294967296 ∧ c.out_notifications < 4294967296

/-- A monitoring state between two calls: the mutex is free, the first
`session_count` slots of both arrays are allocated, and every counter is a
value of type `uint32_t`. -/
def Valid (s : ncm) : Prop :=
  s.lock = false ∧
  s.session_count ≤ s.sessions.length ∧
  s.session_count ≤ s.session_stats.length ∧
  s.session_count < 4294967296 ∧
  s.in_bad_hellos < 4294967296 ∧
  s.in_sessions < 4294967296 ∧
  s.dropped_sessions < 4294967296 ∧
  s.global_stats.in_range ∧
  ∀ c ∈ s.session_stats.take s.session_count, c.in_range

instance (c : ncm_session_stats) : Decidable c.in_range := by
  unfold ncm_session_stats.in_range; infer_instance

instance (s : ncm) : Decidable (Valid s) := by
  unfold Valid; infer_instance

/-- The ids of the registered sessions, in registry order. -/
def registered_ids (s : ncm) : List Nat :=
  (s.sessions.take s.session_count).map nc_session.id

/-! ## Concrete sessions and states used in the examples -/

/-- A build with both secured transports enabled. -/
def ex_build : Build := { NC_ENABLED_SSH := true, NC_ENABLED_TLS := true }

/-- An SSH session with id 1. -/
def ex_s1 : nc_session :=
  { id := 1, ti := NC_TRANSPORT_IMPL.NC_TI_LIBSSH,
    term_reason := NC_SESSION_TERM_REASON.NC_SESSION_TERM_CLOSED,
    username := "alice", host := "192.0.2.1", start_time := 100 }

/-- A TLS session with id 2, closed by a kill. -/
def ex_s2 : nc_session :=
  { id := 2, ti := NC_TRANSPORT_IMPL.NC_TI_OPENSSL,
    term_reason := NC_SESSION_TERM_REASON.NC_SESSION_TERM_KILLED,
    username := "bob", host := "192.0.2.2", start_time := 200 }

/-- An SSH session with id 3. -/
def ex_s3 : nc_session :=
  { id := 3, ti := NC_TRANSPORT_IMPL.NC_TI_LIBSSH,
    term_reason := NC_SESSION_TERM_REASON.NC_SESSION_TERM_CLOSED,
    username := "carol", host := "192.0.2.3", start_time := 300 }

/-- A session on a file-descriptor transport, which no build monitors. -/
def ex_fd : nc_session :=
  { id := 9, ti := NC_TRANSPORT_IMPL.NC_TI_FD,
    term_reason := NC_SESSION_TERM_REASON.NC_SESSION_TERM_CLOSED,
    username := "dave", host := "192.0.2.9", start_time := 900 }

/-- An allocator that serves both `realloc` calls. -/
def ex_alloc : AllocEnv :=
  { sessions_ok := true, session_stats_ok := true, junk_session := ex_fd,
    junk_stats := { in_rpcs := 7, in_bad_rpcs := 7, out_rpc_errors := 7,
                    out_notifications := 7 } }

/-- A state with the three sessions 1, 2, 3 registered, each with its own
counters. -/
def ex_three : World :=
  { stats :=
      { sessions := [ex_s1, ex_s2, ex_s3],
        session_stats :=
          [{ in_rpcs := 3, in_bad_rpcs := 1, out_rpc_errors := 0, out_notifications := 2 },
           { in_rpcs := 5, in_bad_rpcs := 0, out_rpc_errors := 1, out_notifications := 0 },
           { in_rpcs := 8, in_bad_rpcs := 2, out_rpc_errors := 0, out_notifications := 4 }],
        session_count := 3, netconf_start_time := 50, in_bad_hellos := 1,
        in_sessions := 4, dropped_sessions := 1,
        global_stats :=
          { in_rpcs := 20, in_bad_rpcs := 3, out_rpc_errors := 1, out_notifications := 6 },
        lock := false },
    log := [] }

/-- A state with session 1 alone registered. -/
def ex_one : World :=
  { stats :=
      { sessions := [ex_s1],
        session_stats :=
          [{ in_rpcs := 3, in_bad_rpcs := 1, out_rpc_errors := 0, out_notifications := 2 }],
        session_count := 1, netconf_start_time := 50, in_bad_hellos := 0,
        in_sessions := 1, dropped_sessions := 0,
        global_stats :=
          { in_rpcs := 3, in_bad_rpcs := 1, out_rpc_errors := 0, out_notifications := 2 },
        lock := false },
    log := [] }

/-- A state with session 1 alone registered and every counter at the largest
`uint32_t` value. -/
def ex_full : World :=
  { stats :=
      { sessions := [ex_s1],
        session_stats :=
          [{ in_rpcs := 4294967295, in_bad_rpcs := 4294967295,
             out_rpc_errors := 4294967295, out_notifications := 4294967295 }],
        session_count := 1, netconf_start_time := 50, in_bad_hellos := 4294967295,
        in_sessions := 4294967295, dropped_sessions := 4294967295,
        global_stats :=
          { in_rpcs := 4294967295, in_bad_rpcs := 4294967295,
            out_rpc_errors := 4294967295, out_notifications := 4294967295 },
        lock := false },
    log := [] }

/-- A state whose registry holds `2^32 - 1` entries, the largest value of
`session_count`, with the session ids 1, 2, 3, and so on. -/
def ex_crowded : World :=
  { stats :=
      { sessions := (List.range 4294967295).map (fun i => { ex_s1 with id := i + 1 }),
        session_stats := List.replicate 4294967295 ncm_session_stats.zero,
        session_count := 4294967295, netconf_start_time := 50, in_bad_hellos := 0,
        in_sessions := 0, dropped_sessions := 0,
        global_stats := ncm_session_stats.zero, lock := false },
    log := [] }

/-- An SSH session with id 0. -/
def ex_s0 : nc_session :=
  { id := 0, ti := NC_TRANSPORT_IMPL.NC_TI_LIBSSH,
    term_reason := NC_SESSION_TERM_REASON.NC_SESSION_TERM_CLOSED,
    username := "eve", host := "192.0.2.10", start_time := 10 }

/-- An SSH session with id 7. -/
def ex_s7 : nc_session :=
  { id := 7, ti := NC_TRANSPORT_IMPL.NC_TI_LIBSSH,
    term_reason := NC_SESSION_TERM_REASON.NC_SESSION_TERM_CLOSED,
    username := "frank", host := "192.0.2.7", start_time := 700 }

/-- An allocator whose first `realloc` call fails. -/
def ex_alloc_fail_sessions : AllocEnv := { ex_alloc with sessions_ok := false }

/-- An allocator whose second `realloc` call fails. -/
def ex_alloc_fail_stats : AllocEnv := { ex_alloc with session_stats_ok := false }

/-- Collaborators of the callback that all answer successfully. -/
def ex_env : RenderEnv :=
  { lyd_new_path_ok := true,
    cpblts := some ["urn:ietf:params:netconf:base:1.1"],
    lock_running := { rc_ok := true, is_locked := true, nc_id := 1, ts := 150 },
    lock_startup := { rc_ok := false, is_locked := false, nc_id := 0, ts := 0 },
    lock_candidate := { rc_ok := true, is_locked := false, nc_id := 0, ts := 0 },
    modules := [{ name := "ietf-netconf", revision := some "2011-06-01",
                  ns := "urn:ietf:params:xml:ns:netconf:base:1.0" }],
    lyd_validate_ok := true,
    nc_time2datetime := fun t => toString t }

/-- A session opened, used and closed normally. -/
def ex_events : List Event :=
  [Event.session_add ex_alloc ex_s1, Event.rpc ex_s1, Event.rpc ex_s1, Event.rpc ex_s1,
   Event.bad_rpc ex_s1, Event.notification ex_s1, Event.notification ex_s1,
   Event.bad_hello ex_fd, Event.get_notification ex_s1, Event.session_del ex_s1]

/-! ## Auxiliary lemmas -/

theorem u32_dec_pos (n : Nat) (h0 : 0 < n) (h : n < 4294967296) : u32_dec n = n - 1 := by
  unfold u32_dec; rw [if_neg (by omega)]; omega

theorem u32_dec_eq_mod (n : Nat) (h : n < 4294967296) :
    u32_dec n = (n + 4294967295) % 4294967296 := by
  unfold u32_dec; split <;> omega

theorem u32_inc_lt (n : Nat) (h : n + 1 < 4294967296) : u32_inc n = n + 1 := by
  unfold u32_inc; omega

theorem find_loop_found (sessions : List nc_session) (sid k : Nat) :
    ∀ (r i : Nat), i + r ≤ sessions.length → i ≤ k → k < i + r →
      (∀ j x, i ≤ j → j < k → sessions[j]? = some x → x.id ≠ sid) →
      (∃ x, sessions[k]? = some x ∧ x.id = sid) →
      find_session_idx_loop sessions sid i r = Except.ok (some k) := by
  intro r
  induction r with
  | zero => intro i _ h1 h2; omega
  | succ r ih =>
    intro i hlen hik hk hbefore hat
    have hi : i < sessions.length := by omega
    rw [find_session_idx_loop, List.getElem?_eq_getElem hi]
    simp only
    by_cases hki : i = k
    · subst hki
      obtain ⟨x, hx, hxid⟩ := hat
      rw [List.getElem?_eq_getElem hi] at hx
      cases hx
      simp [hxid]
    · have hne : sessions[i].id ≠ sid :=
        hbefore i sessions[i] (le_refl _) (by omega) (List.getElem?_eq_getElem hi)
      simp only [hne, if_false]
      exact ih (i + 1) (by omega) (by omega) (by omega)
        (fun j x h1 h2 h3 => hbefore j x (by omega) h2 h3) hat

theorem nodup_ids_before (sessions : List nc_session) (n k sid : Nat)
    (hn : n ≤ sessions.length) (hk : k < n)
    (hd : ((sessions.take n).map nc_session.id).Nodup)
    (hat : ∃ x, sessions[k]? = some x ∧ x.id = sid) :
    ∀ j x, j < n → j ≠ k → sessions[j]? = some x → x.id ≠ sid := by
  intro j x hj hjk hx hxid
  obtain ⟨y, hy, hyid⟩ := hat
  have hlen : ((sessions.take n).map nc_session.id).length = n := by simp [hn]
  have h1 : ((sessions.take n).map nc_session.id)[j]? = some sid := by
    simp [List.getElem?_take, hj, hx, hxid]
  have h2 : ((sessions.take n).map nc_session.id)[k]? = some sid := by
    simp [List.getElem?_take, hk, hy, hyid]
  have hj' : j < ((sessions.take n).map nc_session.id).length := by omega
  have hk' : k < ((sessions.take n).map nc_session.id).length := by omega
  rw [List.getElem?_eq_getElem hj'] at h1
  rw [List.getElem?_eq_getElem hk'] at h2
  have := (@List.Nodup.getElem_inj_iff _ _ hd j hj' k hk').1 (by
    rw [Option.some.injEq] at h1 h2; rw [h1, h2])
  exact hjk this

theorem take_eraseIdx {α : Type} (xs : List α) (n k : Nat) (hk : k < n) :
    (xs.take n).eraseIdx k = xs.take k ++ (xs.drop (k + 1)).take (n - 1 - k) := by
  rw [List.eraseIdx_eq_take_drop_succ, List.take_take, List.drop_take]
  congr 1
  · congr 1; omega
  · congr 1; omega

theorem memmove_shift {α : Type} (xs : List α) (n k : Nat) (hk : k < n - 1)
    (hn : n ≤ xs.length) :
    ∃ ys, memmove xs k (k + 1) (n - 1 - k) = Except.ok ys ∧
      ys.length = xs.length ∧ ys.take (n - 1) = (xs.take n).eraseIdx k := by
  have hb : k + 1 + (n - 1 - k) ≤ xs.length ∧ k + (n - 1 - k) ≤ xs.length := by omega
  refine ⟨_, by rw [memmove, if_pos hb], ?_, ?_⟩
  · simp only [List.length_append, List.length_take, List.length_drop]; omega
  · rw [take_eraseIdx xs n k (by omega), List.take_append_eq_append_take]
    have h1 : (xs.take k ++ (xs.drop (k + 1)).take (n - 1 - k)).length = n - 1 := by
      simp only [List.length_append, List.length_take, List.length_drop]; omega
    rw [List.take_of_length_le (by omega), h1]
    simp

theorem find_session_idx_found (session : nc_session) (w : World) (k : Nat)
    (hlen : w.stats.session_count ≤ w.stats.sessions.length)
    (hd : (registered_ids w.stats).Nodup) (hk : k < w.stats.session_count)
    (hat : ∃ x, w.stats.sessions[k]? = some x ∧ x.id = session.id) :
    find_session_idx session w = Except.ok (k, w) := by
  have hb := nodup_ids_before w.stats.sessions w.stats.session_count k session.id hlen hk hd hat
  have := find_loop_found w.stats.sessions session.id k w.stats.session_count 0
    (by omega) (by omega) (by omega) (fun j x _ h2 h3 => hb j x (by omega) (by omega) h3) hat
  rw [find_session_idx, this]

theorem realloc_grow {α : Type} (xs : List α) (n : Nat) (junk x : α) (hn : n ≤ xs.length) :
    n < (realloc xs (n + 1) junk).length ∧
    ((realloc xs (n + 1) junk).set n x).take (n + 1) = xs.take n ++ [x] := by
  have hlen : (realloc xs (n + 1) junk).length = n + 1 := by
    unfold realloc
    simp only [List.length_take, List.length_append, List.length_replicate]
    omega
  refine ⟨by omega, ?_⟩
  apply List.ext_getElem?
  intro i
  by_cases hi : i < n
  · have h1 : i < n + 1 := by omega
    have h2 : i < xs.length := by omega
    simp [List.getElem?_take, List.getElem?_set, List.getElem?_append, realloc, hi, h1, h2]
    omega
  · by_cases hin : i = n
    · subst hin
      simp [List.getElem?_take, List.getElem?_set, List.getElem?_append, hlen, hn]
    · have h3 : ¬ i < n + 1 := by omega
      simp [List.getElem?_take, List.getElem?_set, List.getElem?_append, hi, h3, hn]
      omega

theorem ncm_session_count_found (f : Counter) (b : Build) (session : nc_session) (w : World)
    (k : Nat) (hlock : w.stats.lock = false)
    (hl1 : w.stats.session_count ≤ w.stats.sessions.length)
    (hl2 : w.stats.session_count ≤ w.stats.session_stats.length)
    (hd : (registered_ids w.stats).Nodup)
    (hm : ncm_is_monitored b session = true) (hk : k < w.stats.session_count)
    (hat : ∃ x, w.stats.sessions[k]? = some x ∧ x.id = session.id) :
    ∃ c, w.stats.session_stats[k]? = some c ∧
      ncm_session_count f b session w = Except.ok
        { w with stats :=
            { w.stats with
              session_stats := w.stats.session_stats.set k (c.incr f),
              global_stats := w.stats.global_stats.incr f } } := by
  have hkc : k < w.stats.session_stats.length := by omega
  refine ⟨w.stats.session_stats[k], List.getElem?_eq_getElem hkc, ?_⟩
  have hfind : find_session_idx session { w with stats := { w.stats with lock := true } }
      = Except.ok (k, { w with stats := { w.stats with lock := true } }) :=
    find_session_idx_found session _ k hl1 hd hk hat
  unfold ncm_session_count
  simp only [hm, pthread_mutex_lock, hlock, Bool.true_eq_false, Bool.false_eq_true, if_false,
    hfind, List.getElem?_eq_getElem hkc, pthread_mutex_unlock]

theorem ncm_session_del_spec (b : Build) (session : nc_session) (w : World) (k : Nat)
    (hv : Valid w.stats) (hd : (registered_ids w.stats).Nodup)
    (hm : ncm_is_monitored b session = true) (hk : k < w.stats.session_count)
    (hat : ∃ x, w.stats.sessions[k]? = some x ∧ x.id = session.id) :
    ∃ w', ncm_session_del b session w = Except.ok w' ∧
      w'.stats.session_count = w.stats.session_count - 1 ∧
      w'.stats.sessions.take (w.stats.session_count - 1)
        = (w.stats.sessions.take w.stats.session_count).eraseIdx k ∧
      w'.stats.session_stats.take (w.stats.session_count - 1)
        = (w.stats.session_stats.take w.stats.session_count).eraseIdx k ∧
      w'.stats.dropped_sessions =
        (if session.term_reason = NC_SESSION_TERM_REASON.NC_SESSION_TERM_CLOSED then
          w.stats.dropped_sessions
        else (w.stats.dropped_sessions + 1) % 4294967296) ∧
      w'.stats.lock = false ∧
      w'.stats.in_sessions = w.stats.in_sessions ∧
      w'.stats.in_bad_hellos = w.stats.in_bad_hellos ∧
      w'.stats.global_stats = w.stats.global_stats ∧
      w'.stats.netconf_start_time = w.stats.netconf_start_time := by
  obtain ⟨hlock, hl1, hl2, hr, -⟩ := hv
  have hfind : ∀ w3 : World, w3.stats.sessions = w.stats.sessions →
      w3.stats.session_count = w.stats.session_count →
      find_session_idx session w3 = Except.ok (k, w3) := by
    intro w3 e1 e2
    apply find_session_idx_found
    · rw [e1, e2]; exact hl1
    · unfold registered_ids; rw [e1, e2]; exact hd
    · rw [e2]; exact hk
    · rw [e1]; exact hat
  have hdec : u32_dec w.stats.session_count = w.stats.session_count - 1 :=
    u32_dec_pos _ (by omega) hr
  have key : ∀ w3 : World, w3.stats.sessions = w.stats.sessions →
      w3.stats.session_stats = w.stats.session_stats →
      w3.stats.session_count = w.stats.session_count →
      ∃ w', (match find_session_idx session w3 with
        | Except.error e => Except.error e
        | Except.ok (i, w4) =>
          let cnt := u32_dec w4.stats.session_count
          let w5 : World := { w4 with stats := { w4.stats with session_count := cnt } }
          if cnt ≠ 0 ∧ i < cnt then
            match memmove w5.stats.sessions i (i + 1) (cnt - i) with
            | Except.error e => Except.error e
            | Except.ok ss =>
              match memmove w5.stats.session_stats i (i + 1) (cnt - i) with
              | Except.error e => Except.error e
              | Except.ok cs =>
                Except.ok (pthread_mutex_unlock
                  { w5 with stats := { w5.stats with sessions := ss, session_stats := cs } })
          else
            Except.ok (pthread_mutex_unlock w5)) = Except.ok w' ∧
        w'.stats.session_count = w.stats.session_count - 1 ∧
        w'.stats.sessions.take (w.stats.session_count - 1)
          = (w.stats.sessions.take w.stats.session_count).eraseIdx k ∧
        w'.stats.session_stats.take (w.stats.session_count - 1)
          = (w.stats.session_stats.take w.stats.session_count).eraseIdx k ∧
        w'.stats.dropped_sessions = w3.stats.dropped_sessions ∧
        w'.stats.lock = false ∧
        w'.stats.in_sessions = w3.stats.in_sessions ∧
        w'.stats.in_bad_hellos = w3.stats.in_bad_hellos ∧
        w'.stats.global_stats = w3.stats.global_stats ∧
        w'.stats.netconf_start_time = w3.stats.netconf_start_time := by
    intro w3 e1 e2 e3
    rw [hfind w3 e1 e3]
    simp only [e1, e2, e3, hdec]
    by_cases hc : w.stats.session_count - 1 ≠ 0 ∧ k < w.stats.session_count - 1
    · rw [if_pos hc]
      obtain ⟨ss, hss, -, hss2⟩ := memmove_shift w.stats.sessions w.stats.session_count k hc.2 hl1
      obtain ⟨cs, hcs, -, hcs2⟩ :=
        memmove_shift w.stats.session_stats w.stats.session_count k hc.2 hl2
      rw [hss, hcs]
      exact ⟨_, rfl, rfl, hss2, hcs2, rfl, rfl, rfl, rfl, rfl, rfl⟩
    · rw [if_neg hc]
      have hk' : k = w.stats.session_count - 1 := by omega
      refine ⟨_, rfl, rfl, ?_, ?_, rfl, rfl, rfl, rfl, rfl, rfl⟩
      · show List.take _ w.stats.sessions = _
        rw [take_eraseIdx _ _ _ hk, hk']
        simp
      · show List.take _ w.stats.session_stats = _
        rw [take_eraseIdx _ _ _ hk, hk']
        simp
  by_cases h1 : session.term_reason = NC_SESSION_TERM_REASON.NC_SESSION_TERM_NONE <;>
  by_cases h2 : session.term_reason = NC_SESSION_TERM_REASON.NC_SESSION_TERM_CLOSED <;>
  simp only [ncm_session_del, hm, pthread_mutex_lock, hlock, h1, h2, Bool.true_eq_false,
    Bool.false_eq_true, if_false, if_true, ne_eq, not_true_eq_false, not_false_eq_true] <;>
  exact key _ rfl rfl rfl

theorem ncm_session_add_spec (b : Build) (a : AllocEnv) (session : nc_session) (w : World)
    (hv : Valid w.stats) (hm : ncm_is_monitored b session = true)
    (h1 : a.sessions_ok = true) (h2 : a.session_stats_ok = true)
    (hc : w.stats.session_count + 1 < 4294967296) :
    ∃ w', ncm_session_add b a session w = Except.ok w' ∧
      w'.stats.session_count = w.stats.session_count + 1 ∧
      w'.stats.sessions.take (w.stats.session_count + 1)
        = w.stats.sessions.take w.stats.session_count ++ [session] ∧
      w'.stats.session_stats.take (w.stats.session_count + 1)
        = w.stats.session_stats.take w.stats.session_count ++ [ncm_session_stats.zero] ∧
      w'.stats.in_sessions = (w.stats.in_sessions + 1) % 4294967296 ∧
      w'.stats.dropped_sessions = w.stats.dropped_sessions ∧
      w'.stats.in_bad_hellos = w.stats.in_bad_hellos ∧
      w'.stats.global_stats = w.stats.global_stats ∧
      w'.stats.netconf_start_time = w.stats.netconf_start_time ∧
      w'.log = w.log ∧
      Valid w'.stats := by
  obtain ⟨hlock, hl1, hl2, hr, hbh, his, hds, hg, hall⟩ := hv
  have hinc : u32_inc w.stats.session_count = w.stats.session_count + 1 := u32_inc_lt _ hc
  have hdec : u32_dec (w.stats.session_count + 1) = w.stats.session_count :=
    u32_dec_pos _ (by omega) hc
  obtain ⟨g1, e1⟩ := realloc_grow w.stats.sessions w.stats.session_count a.junk_session session hl1
  obtain ⟨g2, e2⟩ := realloc_grow w.stats.session_stats w.stats.session_count a.junk_stats
    ncm_session_stats.zero hl2
  unfold ncm_session_add
  simp only [hm, pthread_mutex_lock, hlock, h1, h2, hinc, hdec, Bool.true_eq_false,
    Bool.false_eq_true, if_false, g1, g2, and_self, if_true]
  refine ⟨_, rfl, rfl, e1, e2, rfl, rfl, rfl, rfl, rfl, rfl, ?_⟩
  refine ⟨rfl, ?_, ?_, hc, hbh, ?_, hds, hg, ?_⟩
  · show w.stats.session_count + 1 ≤ (List.set _ _ _).length
    rw [List.length_set]; omega
  · show w.stats.session_count + 1 ≤ (List.set _ _ _).length
    rw [List.length_set]; omega
  · show u32_inc w.stats.in_sessions < 4294967296
    unfold u32_inc; omega
  · show ∀ c ∈ List.take (w.stats.session_count + 1) (List.set _ _ _),
      ncm_session_stats.in_range c
    rw [e2]
    intro c hcm
    rcases List.mem_append.1 hcm with h | h
    · exact hall c h
    · rw [List.mem_singleton] at h
      subst h
      decide

theorem add_then_del_spec (b : Build) (a : AllocEnv) (session : nc_session)
    (r : NC_SESSION_TERM_REASON) (w : World)
    (hv : Valid w.stats) (hd : (registered_ids w.stats).Nodup)
    (hm : ncm_is_monitored b session = true)
    (hnew : session.id ∉ registered_ids w.stats)
    (h1 : a.sessions_ok = true) (h2 : a.session_stats_ok = true)
    (hc : w.stats.session_count + 1 < 4294967296) :
    ∃ w1 w2, ncm_session_add b a session w = Except.ok w1 ∧
      ncm_session_del b { session with term_reason := r } w1 = Except.ok w2 ∧
      w2.stats.session_count = w.stats.session_count ∧
      w2.stats.sessions.take w.stats.session_count
        = w.stats.sessions.take w.stats.session_count ∧
      w2.stats.session_stats.take w.stats.session_count
        = w.stats.session_stats.take w.stats.session_count ∧
      session.id ∉ registered_ids w2.stats ∧
      w2.stats.dropped_sessions =
        (if r = NC_SESSION_TERM_REASON.NC_SESSION_TERM_CLOSED then w.stats.dropped_sessions
         else (w.stats.dropped_sessions + 1) % 4294967296) := by
  obtain ⟨w1, hadd, hcnt, hss, hcs, -, hdr, -, -, -, -, hv1⟩ :=
    ncm_session_add_spec b a session w hv hm h1 h2 hc
  have hlen : (w.stats.sessions.take w.stats.session_count).length = w.stats.session_count := by
    rw [List.length_take]; have := hv.2.1; omega
  have hlen2 : (w.stats.session_stats.take w.stats.session_count).length
      = w.stats.session_count := by
    rw [List.length_take]; have := hv.2.2.1; omega
  have hids : registered_ids w1.stats = registered_ids w.stats ++ [session.id] := by
    unfold registered_ids
    rw [hcnt, hss, List.map_append, List.map_singleton]
  have hd1 : (registered_ids w1.stats).Nodup := by
    rw [hids]
    exact List.Nodup.append hd (List.nodup_singleton _)
      (List.disjoint_singleton.2 hnew)
  have hat : ∃ x, w1.stats.sessions[w.stats.session_count]? = some x ∧
      x.id = ({ session with term_reason := r } : nc_session).id := by
    refine ⟨session, ?_, rfl⟩
    have h := congrArg (fun l => l[w.stats.session_count]?) hss
    simp only [List.getElem?_take, lt_add_one, if_true] at h
    rw [h, List.getElem?_append_right (by omega), hlen]
    simp
  obtain ⟨w2, hdel, hcnt2, hss2, hcs2, hdr2, -⟩ :=
    ncm_session_del_spec b { session with term_reason := r } w1 w.stats.session_count hv1 hd1
      (by simpa [ncm_is_monitored] using hm) (by omega) hat
  rw [hcnt] at hcnt2 hss2 hcs2
  simp only [Nat.add_sub_cancel] at hcnt2 hss2 hcs2
  rw [hss] at hss2
  rw [hcs] at hcs2
  have e1 : (w.stats.sessions.take w.stats.session_count ++ [session]).eraseIdx
      w.stats.session_count = w.stats.sessions.take w.stats.session_count := by
    rw [List.eraseIdx_append_of_length_le (by omega), hlen]; simp
  have e2 : (w.stats.session_stats.take w.stats.session_count
      ++ [ncm_session_stats.zero]).eraseIdx w.stats.session_count
      = w.stats.session_stats.take w.stats.session_count := by
    rw [List.eraseIdx_append_of_length_le (by omega), hlen2]; simp
  rw [e1] at hss2
  rw [e2] at hcs2
  refine ⟨w1, w2, hadd, hdel, hcnt2, hss2, hcs2, ?_, ?_⟩
  · unfold registered_ids
    rw [hcnt2, hss2]
    exact hnew
  · rw [hdr2, hdr]

theorem transport_label_of_monitored (b : Build) (s : nc_session)
    (h : ncm_is_monitored b s = true) : ∃ label, transport_label b s.ti = some label := by
  unfold ncm_is_monitored at h
  unfold transport_label
  cases hti : s.ti <;> simp only [hti] at h ⊢
  · exact absurd h (by decide)
  · exact absurd h (by decide)
  · exact ⟨_, by rw [if_pos h]⟩
  · exact ⟨_, by rw [if_pos h]⟩

theorem ds_lock_stats (env : RenderEnv) (ds : String) (info : sr_lock_info) (w : World) :
    (ncm_data_add_ds_lock env ds info w).2.stats = w.stats ∧
    (ncm_data_add_ds_lock env ds info w).1.name = "datastore" := by
  unfold ncm_data_add_ds_lock
  split
  · exact ⟨rfl, rfl⟩
  · split <;> exact ⟨rfl, rfl⟩

theorem session_loop_rows (b : Build) (env : RenderEnv) (ss : List nc_session)
    (cs : List ncm_session_stats) :
    ∀ (r i : Nat), i + r ≤ ss.length → i + r ≤ cs.length →
      (∀ j s, i ≤ j → j < i + r → ss[j]? = some s → ncm_is_monitored b s = true) →
      ∃ rows, session_loop b env ss cs i r = SessionLoop.rows rows ∧ rows.length = r ∧
        ∀ j s c, j < r → ss[i + j]? = some s → cs[i + j]? = some c →
          ∃ label, rows[j]? = some (session_node env label s c) := by
  intro r
  induction r with
  | zero =>
    intro i _ _ _
    exact ⟨[], rfl, rfl, fun j s c hj => absurd hj (by omega)⟩
  | succ r ih =>
    intro i h1 h2 hm
    have hi1 : i < ss.length := by omega
    have hi2 : i < cs.length := by omega
    obtain ⟨label, hl⟩ := transport_label_of_monitored b ss[i]
      (hm i ss[i] (le_refl _) (by omega) (List.getElem?_eq_getElem hi1))
    obtain ⟨rest, hrest, hlen, hrows⟩ := ih (i + 1) (by omega) (by omega)
      (fun j s hj1 hj2 hs => hm j s (by omega) (by omega) hs)
    refine ⟨session_node env label ss[i] cs[i] :: rest, ?_, by simp [hlen], ?_⟩
    · rw [session_loop, List.getElem?_eq_getElem hi1]
      simp only [hl, List.getElem?_eq_getElem hi2, hrest]
    · intro j s c hj hs hc
      cases j with
      | zero =>
        rw [Nat.add_zero, List.getElem?_eq_getElem hi1] at hs
        rw [Nat.add_zero, List.getElem?_eq_getElem hi2] at hc
        cases hs; cases hc
        exact ⟨label, by simp⟩
      | succ j =>
        have e : i + (j + 1) = i + 1 + j := by omega
        rw [e] at hs hc
        obtain ⟨l2, h⟩ := hrows j s c (by omega) hs hc
        exact ⟨l2, by simpa using h⟩

theorem session_node_leaves (env : RenderEnv) (label : String) (s : nc_session)
    (c : ncm_session_stats) :
    (session_node env label s c).name = "session" ∧
    (session_node env label s c).keys = [sprintf_u s.id] ∧
    (session_node env label s c).leaf "in-rpcs" = some (sprintf_u c.in_rpcs) ∧
    (session_node env label s c).leaf "in-bad-rpcs" = some (sprintf_u c.in_bad_rpcs) ∧
    (session_node env label s c).leaf "out-rpc-errors" = some (sprintf_u c.out_rpc_errors) ∧
    (session_node env label s c).leaf "out-notifications"
      = some (sprintf_u c.out_notifications) := by
  refine ⟨rfl, rfl, ?_, ?_, ?_, ?_⟩ <;>
  simp [session_node, lyd_node.leaf, lyd_node.child, lyd_node.children, lyd_node.name]

theorem statistics_node_leaves (env : RenderEnv) (s : ncm) :
    (statistics_node env s).name = "statistics" ∧
    (statistics_node env s).leaf "in-bad-hellos" = some (sprintf_u s.in_bad_hellos) ∧
    (statistics_node env s).leaf "in-sessions" = some (sprintf_u s.in_sessions) ∧
    (statistics_node env s).leaf "dropped-sessions" = some (sprintf_u s.dropped_sessions) ∧
    (statistics_node env s).leaf "in-rpcs" = some (sprintf_u s.global_stats.in_rpcs) ∧
    (statistics_node env s).leaf "in-bad-rpcs" = some (sprintf_u s.global_stats.in_bad_rpcs) ∧
    (statistics_node env s).leaf "out-rpc-errors"
      = some (sprintf_u s.global_stats.out_rpc_errors) ∧
    (statistics_node env s).leaf "out-notifications"
      = some (sprintf_u s.global_stats.out_notifications) := by
  refine ⟨rfl, ?_, ?_, ?_, ?_, ?_, ?_, ?_⟩ <;>
  simp [statistics_node, lyd_node.leaf, lyd_node.child, lyd_node.children, lyd_node.name]

theorem sprintf_u_of_lt (x : Nat) (h : x < 4294967296) : sprintf_u x = toString x := by
  unfold sprintf_u; rw [Nat.mod_eq_of_lt h]

theorem oper_cb_tree (b : Build) (env : RenderEnv) (w : World) (caps : List String)
    (hv : Valid w.stats)
    (hsup : ∀ i s, i < w.stats.session_count → w.stats.sessions[i]? = some s →
      ncm_is_monitored b s = true)
    (hp : env.lyd_new_path_ok = true) (hcaps : env.cpblts = some caps)
    (hval : env.lyd_validate_ok = true) :
    ∃ root w', np2srv_ncm_oper_cb b env w = Except.ok (some root, w') ∧
      ((root.child "sessions").isSome ↔ 0 < w.stats.session_count) ∧
      (∀ sess, root.child "sessions" = some sess →
        sess.children.length = w.stats.session_count ∧
        ∀ i s c, i < w.stats.session_count → w.stats.sessions[i]? = some s →
          w.stats.session_stats[i]? = some c →
          ∃ row, sess.children[i]? = some row ∧ row.name = "session" ∧
            row.keys = [sprintf_u s.id] ∧
            row.leaf "in-rpcs" = some (toString c.in_rpcs) ∧
            row.leaf "in-bad-rpcs" = some (toString c.in_bad_rpcs) ∧
            row.leaf "out-rpc-errors" = some (toString c.out_rpc_errors) ∧
            row.leaf "out-notifications" = some (toString c.out_notifications)) ∧
      (∃ st, root.child "statistics" = some st ∧
        st.leaf "in-bad-hellos" = some (toString w.stats.in_bad_hellos) ∧
        st.leaf "in-sessions" = some (toString w.stats.in_sessions) ∧
        st.leaf "dropped-sessions" = some (toString w.stats.dropped_sessions) ∧
        st.leaf "in-rpcs" = some (toString w.stats.global_stats.in_rpcs) ∧
        st.leaf "in-bad-rpcs" = some (toString w.stats.global_stats.in_bad_rpcs) ∧
        st.leaf "out-rpc-errors" = some (toString w.stats.global_stats.out_rpc_errors) ∧
        st.leaf "out-notifications"
          = some (toString w.stats.global_stats.out_notifications)) := by
  obtain ⟨hlock, hl1, hl2, hr, hbh, his, hds, hg, hall⟩ := hv
  obtain ⟨hg1, hg2, hg3, hg4⟩ := hg
  have e1 := (ds_lock_stats env "running" env.lock_running w).1
  have e2 := (ds_lock_stats env "startup" env.lock_startup
    (ncm_data_add_ds_lock env "running" env.lock_running w).2).1
  have e3 := (ds_lock_stats env "candidate" env.lock_candidate
    (ncm_data_add_ds_lock env "startup" env.lock_startup
      (ncm_data_add_ds_lock env "running" env.lock_running w).2).2).1
  rw [e2, e1] at e3
  have hst : ∃ st, st = statistics_node env { w.stats with lock := true } ∧
      st.leaf "in-bad-hellos" = some (toString w.stats.in_bad_hellos) ∧
      st.leaf "in-sessions" = some (toString w.stats.in_sessions) ∧
      st.leaf "dropped-sessions" = some (toString w.stats.dropped_sessions) ∧
      st.leaf "in-rpcs" = some (toString w.stats.global_stats.in_rpcs) ∧
      st.leaf "in-bad-rpcs" = some (toString w.stats.global_stats.in_bad_rpcs) ∧
      st.leaf "out-rpc-errors" = some (toString w.stats.global_stats.out_rpc_errors) ∧
      st.leaf "out-notifications"
        = some (toString w.stats.global_stats.out_notifications) := by
    obtain ⟨-, a1, a2, a3, a4, a5, a6, a7⟩ :=
      statistics_node_leaves env { w.stats with lock := true }
    refine ⟨_, rfl, ?_, ?_, ?_, ?_, ?_, ?_, ?_⟩
    · rw [a1, sprintf_u_of_lt _ hbh]
    · rw [a2, sprintf_u_of_lt _ his]
    · rw [a3, sprintf_u_of_lt _ hds]
    · rw [a4, sprintf_u_of_lt _ hg1]
    · rw [a5, sprintf_u_of_lt _ hg2]
    · rw [a6, sprintf_u_of_lt _ hg3]
    · rw [a7, sprintf_u_of_lt _ hg4]
  obtain ⟨st, hst0, hstl⟩ := hst
  obtain ⟨rows, hrows, hlen, hrow⟩ := session_loop_rows b env w.stats.sessions
    w.stats.session_stats w.stats.session_count 0 (by omega) (by omega)
    (fun j s _ hj hs => hsup j s (by omega) hs)
  unfold np2srv_ncm_oper_cb
  simp only [hp, hcaps, hval, pthread_mutex_lock, e3, hlock, Bool.true_eq_false,
    Bool.false_eq_true, if_false]
  by_cases hz : w.stats.session_count = 0
  · simp only [hz, ne_eq, not_true_eq_false, if_false]
    refine ⟨_, _, rfl, ?_, ?_, ?_⟩
    · simp [lyd_node.child, lyd_node.children, lyd_node.name, statistics_node]
    · intro sess hs
      simp [lyd_node.child, lyd_node.children, lyd_node.name, statistics_node] at hs
    · refine ⟨st, ?_, hstl⟩
      rw [hst0]
      simp [lyd_node.child, lyd_node.children, lyd_node.name, statistics_node]
  · simp only [hz, ne_eq, not_false_eq_true, if_true, hrows]
    refine ⟨_, _, rfl, ?_, ?_, ?_⟩
    · simp [lyd_node.child, lyd_node.children, lyd_node.name]
      omega
    · intro sess hs
      have hsess : sess = lyd_node.inner "sessions" rows := by
        simp [lyd_node.child, lyd_node.children, lyd_node.name] at hs
        exact hs.symm
      subst hsess
      refine ⟨hlen, ?_⟩
      intro i s c hi hs' hc'
      obtain ⟨label, hl⟩ := hrow i s c hi (by simpa using hs') (by simpa using hc')
      obtain ⟨n1, n2, n3, n4, n5, n6⟩ := session_node_leaves env label s c
      have hcin : c ∈ w.stats.session_stats.take w.stats.session_count := by
        rw [List.mem_iff_getElem?]
        exact ⟨i, by rw [List.getElem?_take]; simp [hi, hc']⟩
      obtain ⟨r1, r2, r3, r4⟩ := hall c hcin
      refine ⟨_, hl, n1, n2, ?_, ?_, ?_, ?_⟩
      · rw [n3, sprintf_u_of_lt _ r1]
      · rw [n4, sprintf_u_of_lt _ r2]
      · rw [n5, sprintf_u_of_lt _ r3]
      · rw [n6, sprintf_u_of_lt _ r4]
    · refine ⟨st, ?_, hstl⟩
      rw [hst0]
      simp [lyd_node.child, lyd_node.children, lyd_node.name, statistics_node]

theorem find_session_idx_stats (session : nc_session) (w w2 : World) (i : Nat)
    (h : find_session_idx session w = Except.ok (i, w2)) : w2.stats = w.stats := by
  unfold find_session_idx at h
  split at h
  · cases h
  · cases h; rfl
  · cases h; rfl

theorem ncm_session_count_global (f : Counter) (b : Build) (session : nc_session)
    (w w' : World) (h : ncm_session_count f b session w = Except.ok w') :
    w'.stats.global_stats =
      if ncm_is_monitored b session = true then w.stats.global_stats.incr f
      else w.stats.global_stats := by
  unfold ncm_session_count at h
  by_cases hm : ncm_is_monitored b session = true
  · rw [if_pos hm]
    simp only [hm, Bool.true_eq_false, if_false, pthread_mutex_lock] at h
    by_cases hl : w.stats.lock = true
    · simp only [hl, if_true] at h
      cases h
    · simp only [hl, Bool.false_eq_true, if_false] at h
      split at h
      · cases h
      · rename_i idx w2 hf
        have e := find_session_idx_stats _ _ _ _ hf
        split at h
        · cases h
        · cases h
          show (w2.stats.global_stats).incr f = _
          rw [e]
  · rw [if_neg hm]
    have hm' : ncm_is_monitored b session = false := by simpa using hm
    simp only [hm', if_true] at h
    cases h; rfl

theorem ncm_session_add_global (b : Build) (a : AllocEnv) (session : nc_session)
    (w w' : World) (h : ncm_session_add b a session w = Except.ok w') :
    w'.stats.global_stats = w.stats.global_stats := by
  unfold ncm_session_add at h
  by_cases hm : ncm_is_monitored b session = true
  · simp only [hm, Bool.true_eq_false, if_false, pthread_mutex_lock] at h
    by_cases hl : w.stats.lock = true
    · simp only [hl, if_true] at h
      cases h
    · simp only [hl, Bool.false_eq_true, if_false] at h
      by_cases h1 : a.sessions_ok = false
      · rw [if_pos h1] at h
        cases h; rfl
      · rw [if_neg h1] at h
        by_cases h2 : a.session_stats_ok = false
        · rw [if_pos h2] at h
          cases h; rfl
        · rw [if_neg h2] at h
          split at h
          · cases h; rfl
          · cases h
  · have hm' : ncm_is_monitored b session = false := by simpa using hm
    simp only [hm', if_true] at h
    cases h; rfl

theorem ncm_session_del_global (b : Build) (session : nc_session)
    (w w' : World) (h : ncm_session_del b session w = Except.ok w') :
    w'.stats.global_stats = w.stats.global_stats := by
  unfold ncm_session_del at h
  by_cases hm : ncm_is_monitored b session = false
  · simp only [hm, if_true] at h
    cases h; rfl
  · have hm' : ncm_is_monitored b session = true := by simpa using hm
    simp only [hm', Bool.true_eq_false, if_false, pthread_mutex_lock] at h
    by_cases hl : w.stats.lock = true
    · simp only [hl, if_true] at h
      cases h
    · simp only [hl, Bool.false_eq_true, if_false] at h
      split at h
      · cases h
      · rename_i i w4 hf
        have e := find_session_idx_stats _ _ _ _ hf
        have e' : w4.stats.global_stats = w.stats.global_stats := by
          rw [e]; split <;> split <;> rfl
        split at h
        · split at h
          · cases h
          · split at h
            · cases h
            · cases h; exact e'
        · cases h; exact e'

theorem ncm_bad_hello_global (b : Build) (session : nc_session)
    (w w' : World) (h : ncm_bad_hello b session w = Except.ok w') :
    w'.stats.global_stats = w.stats.global_stats := by
  unfold ncm_bad_hello at h
  by_cases hm : ncm_is_monitored b session = false
  · simp only [hm, if_true] at h
    cases h; rfl
  · have hm' : ncm_is_monitored b session = true := by simpa using hm
    simp only [hm', Bool.true_eq_false, if_false, pthread_mutex_lock] at h
    by_cases hl : w.stats.lock = true
    · simp only [hl, if_true] at h
      cases h
    · simp only [hl, Bool.false_eq_true, if_false] at h
      cases h; rfl

theorem ncm_session_get_notification_global (b : Build) (session : nc_session)
    (w w' : World) (n : Nat)
    (h : ncm_session_get_notification b session w = Except.ok (n, w')) :
    w'.stats.global_stats = w.stats.global_stats := by
  unfold ncm_session_get_notification at h
  by_cases hm : ncm_is_monitored b session = false
  · simp only [hm, if_true] at h
    cases h; rfl
  · have hm' : ncm_is_monitored b session = true := by simpa using hm
    simp only [hm', Bool.true_eq_false, if_false, pthread_mutex_lock] at h
    by_cases hl : w.stats.lock = true
    · simp only [hl, if_true] at h
      cases h
    · simp only [hl, Bool.false_eq_true, if_false] at h
      split at h
      · cases h
      · rename_i idx w2 hf
        have e := find_session_idx_stats _ _ _ _ hf
        split at h
        · cases h
        · cases h
          show w2.stats.global_stats = _
          rw [e]

theorem incr_get (c : ncm_session_stats) (f g : Counter) :
    (c.incr f).get g = if f = g then u32_inc (c.get g) else c.get g := by
  cases f <;> cases g <;> simp [ncm_session_stats.incr, ncm_session_stats.get]

theorem Event.apply_global (b : Build) (g : Counter) (e : Event) (w w' : World)
    (h : e.apply b w = Except.ok w') :
    w'.stats.global_stats.get g =
      if e.counts b g = true then u32_inc (w.stats.global_stats.get g)
      else w.stats.global_stats.get g := by
  cases e with
  | rpc s =>
    have := ncm_session_count_global _ b s w w' h
    rw [this]
    by_cases hm : ncm_is_monitored b s = true <;> cases g <;>
      simp [Event.counts, hm, incr_get]
  | bad_rpc s =>
    have := ncm_session_count_global _ b s w w' h
    rw [this]
    by_cases hm : ncm_is_monitored b s = true <;> cases g <;>
      simp [Event.counts, hm, incr_get]
  | rpc_reply_error s =>
    have := ncm_session_count_global _ b s w w' h
    rw [this]
    by_cases hm : ncm_is_monitored b s = true <;> cases g <;>
      simp [Event.counts, hm, incr_get]
  | notification s =>
    have := ncm_session_count_global _ b s w w' h
    rw [this]
    by_cases hm : ncm_is_monitored b s = true <;> cases g <;>
      simp [Event.counts, hm, incr_get]
  | session_add a s =>
    rw [ncm_session_add_global b a s w w' h]; simp [Event.counts]
  | session_del s =>
    rw [ncm_session_del_global b s w w' h]; simp [Event.counts]
  | bad_hello s =>
    rw [ncm_bad_hello_global b s w w' h]; simp [Event.counts]
  | get_notification s =>
    simp only [Event.apply] at h
    split at h
    · cases h
    · rename_i n w1 hg
      cases h
      rw [ncm_session_get_notification_global b s w _ n hg]; simp [Event.counts]

theorem run_events_global (b : Build) (g : Counter) :
    ∀ (evs : List Event) (w w' : World), run_events b evs w = Except.ok w' →
      w.stats.global_stats.get g < 4294967296 →
      w'.stats.global_stats.get g
        = (w.stats.global_stats.get g + count_calls b g evs) % 4294967296 := by
  intro evs
  induction evs with
  | nil =>
    intro w w' h hr
    cases h
    simp [count_calls, Nat.mod_eq_of_lt hr]
  | cons e es ih =>
    intro w w' h hr
    rw [run_events] at h
    split at h
    · cases h
    · rename_i w1 he
      have h1 := Event.apply_global b g e w w1 he
      have hc : count_calls b g (e :: es)
          = count_calls b g es + (if e.counts b g = true then 1 else 0) := by
        unfold count_calls; rw [List.countP_cons]
      by_cases hcnt : e.counts b g = true
      · rw [if_pos hcnt] at h1
        have hr1 : w1.stats.global_stats.get g < 4294967296 := by
          rw [h1]; unfold u32_inc; omega
        rw [ih w1 w' h hr1, h1, hc, if_pos hcnt]
        unfold u32_inc
        omega
      · rw [if_neg hcnt] at h1
        rw [ih w1 w' h (by rw [h1]; exact hr), h1, hc, if_neg hcnt]
        rfl

theorem ncm_session_add_count_wraps (b : Build) (a : AllocEnv) (session : nc_session)
    (w : World) (hl : w.stats.lock = false) (hn : w.stats.session_count = 4294967295)
    (hm : ncm_is_monitored b session = true)
    (h1 : a.sessions_ok = true) (h2 : a.session_stats_ok = true) :
    ncm_session_add b a session w = Except.error Fault.out_of_bounds := by
  have e1 : u32_inc w.stats.session_count = 0 := by rw [hn]; rfl
  have e2 : u32_dec 0 = 4294967295 := rfl
  unfold ncm_session_add
  simp only [hm, pthread_mutex_lock, hl, h1, h2, e1, e2, Bool.true_eq_false,
    Bool.false_eq_true, if_false, realloc, List.take_zero, List.set_nil, List.length_nil]
  rfl

theorem ex_crowded_sessions_length : ex_crowded.stats.sessions.length = 4294967295 := by
  simp only [ex_crowded, List.length_map, List.length_range]

theorem ex_crowded_stats_length : ex_crowded.stats.session_stats.length = 4294967295 := by
  simp only [ex_crowded, List.length_replicate]

theorem ex_crowded_valid : Valid ex_crowded.stats := by
  refine ⟨rfl, ?_, ?_, by decide, by decide, by decide, by decide, by decide, ?_⟩
  · rw [ex_crowded_sessions_length]; exact Nat.le_of_eq rfl
  · rw [ex_crowded_stats_length]; exact Nat.le_of_eq rfl
  · intro c hc
    have h1 : c ∈ List.replicate 4294967295 ncm_session_stats.zero := List.mem_of_mem_take hc
    rw [List.eq_of_mem_replicate h1]
    decide

theorem ex_crowded_ids :
    registered_ids ex_crowded.stats = (List.range 4294967295).map (fun i => i + 1) := by
  have h : ex_crowded.stats.sessions.length ≤ ex_crowded.stats.session_count := by
    rw [ex_crowded_sessions_length]; exact Nat.le_of_eq rfl
  unfold registered_ids
  rw [List.take_of_length_le h]
  simp only [ex_crowded, List.map_map]
  rfl

theorem ex_crowded_nodup :
    (registered_ids ex_crowded.stats).Nodup ∧ ex_s0.id ∉ registered_ids ex_crowded.stats := by
  rw [ex_crowded_ids]
  constructor
  · exact List.Nodup.map (fun a b h => Nat.succ.inj h) (List.nodup_range _)
  · intro h
    obtain ⟨i, -, hi⟩ := List.mem_map.1 h
    exact Nat.succ_ne_zero i hi

theorem run_events_replicate_count (f : Counter) (b : Build) (session : nc_session) (k : Nat)
    (hm : ncm_is_monitored b session = true) :
    ∀ (n : Nat) (w : World), w.stats.lock = false →
      w.stats.session_count ≤ w.stats.sessions.length →
      w.stats.session_count ≤ w.stats.session_stats.length →
      (registered_ids w.stats).Nodup → k < w.stats.session_count →
      (∃ x, w.stats.sessions[k]? = some x ∧ x.id = session.id) →
      ∀ e : Event, e.apply b = ncm_session_count f b session →
      ∃ w', run_events b (List.replicate n e) w = Except.ok w' := by
  intro n
  induction n with
  | zero => intro w _ _ _ _ _ _ e _; exact ⟨w, rfl⟩
  | succ n ih =>
    intro w hlock hl1 hl2 hd hk hat e he
    obtain ⟨c, -, hrun⟩ := ncm_session_count_found f b session w k hlock hl1 hl2 hd hm hk hat
    rw [List.replicate_succ, run_events, he, hrun]
    exact ih { w with stats :=
        { w.stats with
          session_stats := w.stats.session_stats.set k (c.incr f),
          global_stats := w.stats.global_stats.incr f } }
      hlock hl1 (by simpa using hl2) hd hk hat e he

theorem count_calls_replicate (b : Build) (f : Counter) (e : Event) (n : Nat)
    (h : e.counts b f = true) : count_calls b f (List.replicate n e) = n := by
  unfold count_calls
  rw [List.countP_replicate, if_pos h]

theorem rpc_sequence_general (n : Nat) :
    ∃ w, run_events ex_build
        (Event.session_add ex_alloc ex_s1 :: List.replicate n (Event.rpc ex_s1))
        (ncm_init 0) = Except.ok w ∧
      w.stats.global_stats.in_rpcs = n % 4294967296 ∧
      count_calls ex_build Counter.in_rpcs
        (Event.session_add ex_alloc ex_s1 :: List.replicate n (Event.rpc ex_s1)) = n := by
  have h0 : (Event.session_add ex_alloc ex_s1).apply ex_build (ncm_init 0)
      = Except.ok
        { stats :=
            { sessions := [ex_s1], session_stats := [ncm_session_stats.zero],
              session_count := 1, netconf_start_time := 0, in_bad_hellos := 0,
              in_sessions := 1, dropped_sessions := 0,
              global_stats := ncm_session_stats.zero, lock := false },
          log := [] } := rfl
  obtain ⟨w, hw⟩ := run_events_replicate_count Counter.in_rpcs ex_build ex_s1 0 rfl n
    { stats :=
        { sessions := [ex_s1], session_stats := [ncm_session_stats.zero],
          session_count := 1, netconf_start_time := 0, in_bad_hellos := 0,
          in_sessions := 1, dropped_sessions := 0,
          global_stats := ncm_session_stats.zero, lock := false },
      log := [] } rfl (by decide) (by decide) (by decide) (by decide) ⟨ex_s1, rfl, rfl⟩
    (Event.rpc ex_s1) rfl
  have hrun : run_events ex_build
      (Event.session_add ex_alloc ex_s1 :: List.replicate n (Event.rpc ex_s1))
      (ncm_init 0) = Except.ok w := by
    rw [run_events, h0]
    exact hw
  have hcount : count_calls ex_build Counter.in_rpcs
      (Event.session_add ex_alloc ex_s1 :: List.replicate n (Event.rpc ex_s1)) = n := by
    have := count_calls_replicate ex_build Counter.in_rpcs (Event.rpc ex_s1) n rfl
    unfold count_calls at this ⊢
    rw [List.countP_cons, this]
    rfl
  refine ⟨w, hrun, ?_, hcount⟩
  have := run_events_global ex_build Counter.in_rpcs _ _ _ hrun (by decide)
  rw [hcount] at this
  rw [show w.stats.global_stats.in_rpcs = w.stats.global_stats.get Counter.in_rpcs from rfl,
    this]
  show (0 + n) % 4294967296 = n % 4294967296
  rw [Nat.zero_add]

/-! ## The claims -/

/-- C1: in a registry of `n` entries with pairwise distinct session ids,
`ncm_session_del` of a monitored session whose id is at position `k` returns
with `session_count = n - 1`, and the first `n - 1` slots of both arrays are
the previous `n` entries with position `k` deleted: slots before `k` are
unchanged and every later entry has moved one slot toward the front, handle
and Counter Set alike. -/
theorem ncm_session_del_compacts (b : Build) (session : nc_session) (w : World) (k : Nat)
    (hv : Valid w.stats) (hd : (registered_ids w.stats).Nodup)
    (hm : ncm_is_monitored b session = true) (hk : k < w.stats.session_count)
    (hat : ∃ x, w.stats.sessions[k]? = some x ∧ x.id = session.id) :
    ∃ w', ncm_session_del b session w = Except.ok w' ∧
      w'.stats.session_count = w.stats.session_count - 1 ∧
      w'.stats.sessions.take (w.stats.session_count - 1)
        = (w.stats.sessions.take w.stats.session_count).eraseIdx k ∧
      w'.stats.session_stats.take (w.stats.session_count - 1)
        = (w.stats.session_stats.take w.stats.session_count).eraseIdx k ∧
      (∀ j, j < k →
        w'.stats.sessions[j]? = w.stats.sessions[j]? ∧
        w'.stats.session_stats[j]? = w.stats.session_stats[j]?) ∧
      (∀ j, k ≤ j → j < w.stats.session_count - 1 →
        w'.stats.sessions[j]? = w.stats.sessions[j + 1]? ∧
        w'.stats.session_stats[j]? = w.stats.session_stats[j + 1]?) := by
  obtain ⟨w', h, hc, hs, hcs, -⟩ := ncm_session_del_spec b session w k hv hd hm hk hat
  have pos : ∀ {α : Type} (xs ys : List α),
      ys.take (w.stats.session_count - 1) = (xs.take w.stats.session_count).eraseIdx k →
      (∀ j, j < k → ys[j]? = xs[j]?) ∧
      (∀ j, k ≤ j → j < w.stats.session_count - 1 → ys[j]? = xs[j + 1]?) := by
    intro α xs ys e
    constructor
    · intro j hj
      have h1 := congrArg (fun l => l[j]?) e
      simp only [List.getElem?_take, List.getElem?_eraseIdx, hj, if_true] at h1
      rw [if_pos (by omega), if_pos (by omega)] at h1
      exact h1
    · intro j hj1 hj2
      have h1 := congrArg (fun l => l[j]?) e
      simp only [List.getElem?_take, List.getElem?_eraseIdx] at h1
      rw [if_pos hj2, if_neg (by omega), if_pos (by omega)] at h1
      exact h1
  obtain ⟨p1, p2⟩ := pos _ _ hs
  obtain ⟨q1, q2⟩ := pos _ _ hcs
  exact ⟨w', h, hc, hs, hcs, fun j hj => ⟨p1 j hj, q1 j hj⟩,
    fun j h1 h2 => ⟨p2 j h1 h2, q2 j h1 h2⟩⟩

/-- C1, at a concrete input: closing session 2 of the registry 1, 2, 3 leaves
the registry 1, 3 with the counters of 1 and 3. -/
theorem ncm_session_del_compacts_witness :
    ∃ w', ncm_session_del ex_build ex_s2 ex_three = Except.ok w' ∧
      w'.stats.session_count = 2 ∧
      w'.stats.sessions.take 2 = [ex_s1, ex_s3] ∧
      w'.stats.session_stats.take 2 =
        [{ in_rpcs := 3, in_bad_rpcs := 1, out_rpc_errors := 0, out_notifications := 2 },
         { in_rpcs := 8, in_bad_rpcs := 2, out_rpc_errors := 0, out_notifications := 4 }] := by
  obtain ⟨w', h, hc, hs, hcs, -⟩ :=
    ncm_session_del_compacts ex_build ex_s2 ex_three 1 (by decide) (by decide) rfl (by decide)
      ⟨ex_s2, rfl, rfl⟩
  exact ⟨w', h, hc, hs, hcs⟩

/-- C2 as stated fails: in a state whose sessions-started counter holds
`2^32 - 1`, a successful `ncm_session_add` leaves `in_sessions = 0`, not one
more; and with `2^32 - 1` registered entries `session_count` wraps to zero and
the store to the last position falls outside the array. -/
theorem ncm_session_add_wraps :
    Valid ex_full.stats ∧ ncm_is_monitored ex_build ex_s2 = true ∧
    (∃ w', ncm_session_add ex_build ex_alloc ex_s2 ex_full = Except.ok w' ∧
      ex_full.stats.in_sessions = 4294967295 ∧ w'.stats.in_sessions = 0 ∧
      w'.stats.in_sessions ≠ ex_full.stats.in_sessions + 1) ∧
    Valid ex_crowded.stats ∧
    ncm_session_add ex_build ex_alloc ex_s2 ex_crowded
      = Except.error Fault.out_of_bounds := by
  exact ⟨by decide, rfl, ⟨_, rfl, rfl, rfl, by decide⟩, ex_crowded_valid,
    ncm_session_add_count_wraps ex_build ex_alloc ex_s2 ex_crowded rfl rfl rfl rfl rfl⟩

/-- C2, amended: in a state with fewer than `2^32 - 1` registered entries,
`ncm_session_add` of a monitored session whose two `realloc` calls succeed
increases `session_count` by one, puts the handle and an all-zero Counter Set
at the last position, leaves the earlier entries where they were, and
increments `in_sessions` by one modulo `2^32`. -/
theorem ncm_session_add_appends (b : Build) (a : AllocEnv) (session : nc_session) (w : World)
    (hv : Valid w.stats) (hm : ncm_is_monitored b session = true)
    (h1 : a.sessions_ok = true) (h2 : a.session_stats_ok = true)
    (hc : w.stats.session_count + 1 < 4294967296) :
    ∃ w', ncm_session_add b a session w = Except.ok w' ∧
      w'.stats.session_count = w.stats.session_count + 1 ∧
      w'.stats.sessions[w.stats.session_count]? = some session ∧
      w'.stats.session_stats[w.stats.session_count]? =
        some { in_rpcs := 0, in_bad_rpcs := 0, out_rpc_errors := 0, out_notifications := 0 } ∧
      w'.stats.sessions.take w.stats.session_count
        = w.stats.sessions.take w.stats.session_count ∧
      w'.stats.session_stats.take w.stats.session_count
        = w.stats.session_stats.take w.stats.session_count ∧
      w'.stats.in_sessions = (w.stats.in_sessions + 1) % 4294967296 := by
  obtain ⟨w', h, hcnt, hs, hcs, hin, -⟩ := ncm_session_add_spec b a session w hv hm h1 h2 hc
  have hlen1 : (w.stats.sessions.take w.stats.session_count).length
      = w.stats.session_count := by
    rw [List.length_take]; have := hv.2.1; omega
  have hlen2 : (w.stats.session_stats.take w.stats.session_count).length
      = w.stats.session_count := by
    rw [List.length_take]; have := hv.2.2.1; omega
  refine ⟨w', h, hcnt, ?_, ?_, ?_, ?_, hin⟩
  · have e := congrArg (fun l => l[w.stats.session_count]?) hs
    simp only [List.getElem?_take, lt_add_one, if_true] at e
    rw [e, List.getElem?_append_right (by omega), hlen1]
    simp
  · have e := congrArg (fun l => l[w.stats.session_count]?) hcs
    simp only [List.getElem?_take, lt_add_one, if_true] at e
    rw [e, List.getElem?_append_right (by omega), hlen2]
    simp [ncm_session_stats.zero]
  · have e := congrArg (List.take w.stats.session_count) hs
    rw [List.take_take, List.take_append_of_le_length (by omega), List.take_take] at e
    simpa using e
  · have e := congrArg (List.take w.stats.session_count) hcs
    rw [List.take_take, List.take_append_of_le_length (by omega), List.take_take] at e
    simpa using e

/-- C2, amended, at a concrete input: opening session 2 in the registry holding
session 1. -/
theorem ncm_session_add_appends_witness :
    ∃ w', ncm_session_add ex_build ex_alloc ex_s2 ex_one = Except.ok w' ∧
      w'.stats.session_count = 2 ∧ w'.stats.sessions[1]? = some ex_s2 ∧
      w'.stats.in_sessions = 2 := by
  obtain ⟨w', h, hc, hs, -, -, -, hin⟩ :=
    ncm_session_add_appends ex_build ex_alloc ex_s2 ex_one (by decide) rfl rfl rfl (by decide)
  exact ⟨w', h, hc, hs, hin⟩

/-- C3 as stated fails: when the `in_rpcs` counters of the session and of the
global Counter Set hold `2^32 - 1`, `ncm_session_rpc` leaves both at 0, which is
not one more. -/
theorem ncm_session_rpc_wraps :
    Valid ex_full.stats ∧ ncm_is_monitored ex_build ex_s1 = true ∧
    ∃ w' c', ncm_session_rpc ex_build ex_s1 ex_full = Except.ok w' ∧
      ex_full.stats.session_stats[0]? = some
        { in_rpcs := 4294967295, in_bad_rpcs := 4294967295,
          out_rpc_errors := 4294967295, out_notifications := 4294967295 } ∧
      w'.stats.session_stats[0]? = some c' ∧
      c'.in_rpcs = 0 ∧ c'.in_rpcs ≠ 4294967295 + 1 ∧
      w'.stats.global_stats.in_rpcs = 0 ∧
      w'.stats.global_stats.in_rpcs ≠ ex_full.stats.global_stats.in_rpcs + 1 :=
  ⟨by decide, rfl, _, _, rfl, rfl, rfl, rfl, by decide, rfl, by decide⟩

/-- C3, amended: in a state with pairwise distinct registered ids, for a
monitored session registered at position `k` with Counter Set `c`, each of the
four counter recorders returns the state in which its own counter of entry `k`
and the same counter of the global Counter Set are incremented by one modulo
`2^32`, and nothing else differs from the state before the call. -/
theorem counter_recorders_effect (b : Build) (session : nc_session) (w : World) (k : Nat)
    (c : ncm_session_stats)
    (hv : Valid w.stats) (hd : (registered_ids w.stats).Nodup)
    (hm : ncm_is_monitored b session = true) (hk : k < w.stats.session_count)
    (hat : ∃ x, w.stats.sessions[k]? = some x ∧ x.id = session.id)
    (hc : w.stats.session_stats[k]? = some c) :
    ncm_session_rpc b session w = Except.ok
      { w with stats := { w.stats with
          session_stats := w.stats.session_stats.set k
            { c with in_rpcs := (c.in_rpcs + 1) % 4294967296 },
          global_stats := { w.stats.global_stats with
            in_rpcs := (w.stats.global_stats.in_rpcs + 1) % 4294967296 } } } ∧
    ncm_session_bad_rpc b session w = Except.ok
      { w with stats := { w.stats with
          session_stats := w.stats.session_stats.set k
            { c with in_bad_rpcs := (c.in_bad_rpcs + 1) % 4294967296 },
          global_stats := { w.stats.global_stats with
            in_bad_rpcs := (w.stats.global_stats.in_bad_rpcs + 1) % 4294967296 } } } ∧
    ncm_session_rpc_reply_error b session w = Except.ok
      { w with stats := { w.stats with
          session_stats := w.stats.session_stats.set k
            { c with out_rpc_errors := (c.out_rpc_errors + 1) % 4294967296 },
          global_stats := { w.stats.global_stats with
            out_rpc_errors := (w.stats.global_stats.out_rpc_errors + 1) % 4294967296 } } } ∧
    ncm_session_notification b session w = Except.ok
      { w with stats := { w.stats with
          session_stats := w.stats.session_stats.set k
            { c with out_notifications := (c.out_notifications + 1) % 4294967296 },
          global_stats := { w.stats.global_stats with
            out_notifications :=
              (w.stats.global_stats.out_notifications + 1) % 4294967296 } } } := by
  obtain ⟨hlock, hl1, hl2, -⟩ := hv
  refine ⟨?_, ?_, ?_, ?_⟩
  · obtain ⟨c', hc', h⟩ :=
      ncm_session_count_found Counter.in_rpcs b session w k hlock hl1 hl2 hd hm hk hat
    rw [hc] at hc'; cases hc'
    exact h
  · obtain ⟨c', hc', h⟩ :=
      ncm_session_count_found Counter.in_bad_rpcs b session w k hlock hl1 hl2 hd hm hk hat
    rw [hc] at hc'; cases hc'
    exact h
  · obtain ⟨c', hc', h⟩ :=
      ncm_session_count_found Counter.out_rpc_errors b session w k hlock hl1 hl2 hd hm hk hat
    rw [hc] at hc'; cases hc'
    exact h
  · obtain ⟨c', hc', h⟩ :=
      ncm_session_count_found Counter.out_notifications b session w k hlock hl1 hl2 hd hm hk
        hat
    rw [hc] at hc'; cases hc'
    exact h

/-- C3, amended, at a concrete input: an RPC of session 2 in the registry
1, 2, 3 changes the `in_rpcs` of entry 1 from 5 to 6 and the global `in_rpcs`
from 20 to 21. -/
theorem counter_recorders_effect_witness :
    ncm_session_rpc ex_build ex_s2 ex_three = Except.ok
      { ex_three with stats := { ex_three.stats with
          session_stats := ex_three.stats.session_stats.set 1
            { in_rpcs := 6, in_bad_rpcs := 0, out_rpc_errors := 1, out_notifications := 0 },
          global_stats :=
            { in_rpcs := 21, in_bad_rpcs := 3, out_rpc_errors := 1,
              out_notifications := 6 } } } :=
  (counter_recorders_effect ex_build ex_s2 ex_three 1
    { in_rpcs := 5, in_bad_rpcs := 0, out_rpc_errors := 1, out_notifications := 0 }
    (by decide) (by decide) rfl (by decide) ⟨ex_s2, rfl, rfl⟩ rfl).1

/-- C4 as stated fails: after a session is opened and `ncm_session_rpc` is
called `2^32` times for it, the global `in_rpcs` is 0, not the number of
calls; and the single call of `ncm_session_rpc` for a monitored session on the
empty initial registry reads `stats.session_stats[0]` where nothing is
allocated, so there is no state after it. -/
theorem global_in_rpcs_wraps :
    (∃ w, run_events ex_build
        (Event.session_add ex_alloc ex_s1 :: List.replicate 4294967296 (Event.rpc ex_s1))
        (ncm_init 0) = Except.ok w ∧
      w.stats.global_stats.in_rpcs = 0 ∧
      count_calls ex_build Counter.in_rpcs
        (Event.session_add ex_alloc ex_s1
          :: List.replicate 4294967296 (Event.rpc ex_s1)) = 4294967296 ∧
      w.stats.global_stats.in_rpcs ≠
        count_calls ex_build Counter.in_rpcs
          (Event.session_add ex_alloc ex_s1
            :: List.replicate 4294967296 (Event.rpc ex_s1))) ∧
    ncm_is_monitored ex_build ex_s1 = true ∧
    run_events ex_build [Event.rpc ex_s1] (ncm_init 0)
      = Except.error Fault.out_of_bounds := by
  obtain ⟨w, h1, h2, h3⟩ := rpc_sequence_general 4294967296
  refine ⟨⟨w, h1, h2, h3, ?_⟩, rfl, rfl⟩
  rw [h2, h3]
  decide

/-- C4, amended: after every finite sequence of recorder calls applied to the
initial all-zero state in which every call returns, each field of the global
Counter Set equals,
modulo `2^32`, the number of calls in the sequence to the recorder of that
field whose session is monitored; and a call of `ncm_session_add`,
`ncm_session_del`, `ncm_bad_hello` or `ncm_session_get_notification` never
changes the global Counter Set. -/
theorem global_counters_count_calls (b : Build) (now : Nat) (evs : List Event) (w : World)
    (h : run_events b evs (ncm_init now) = Except.ok w) :
    w.stats.global_stats.in_rpcs = count_calls b Counter.in_rpcs evs % 4294967296 ∧
    w.stats.global_stats.in_bad_rpcs = count_calls b Counter.in_bad_rpcs evs % 4294967296 ∧
    w.stats.global_stats.out_rpc_errors
      = count_calls b Counter.out_rpc_errors evs % 4294967296 ∧
    w.stats.global_stats.out_notifications
      = count_calls b Counter.out_notifications evs % 4294967296 ∧
    (∀ (a : AllocEnv) (s : nc_session) (w1 w2 : World) (n : Nat),
      (ncm_session_add b a s w1 = Except.ok w2 →
        w2.stats.global_stats = w1.stats.global_stats) ∧
      (ncm_session_del b s w1 = Except.ok w2 →
        w2.stats.global_stats = w1.stats.global_stats) ∧
      (ncm_bad_hello b s w1 = Except.ok w2 →
        w2.stats.global_stats = w1.stats.global_stats) ∧
      (ncm_session_get_notification b s w1 = Except.ok (n, w2) →
        w2.stats.global_stats = w1.stats.global_stats)) := by
  have key : ∀ f, w.stats.global_stats.get f = count_calls b f evs % 4294967296 := by
    intro f
    have h0 : (ncm_init now).stats.global_stats.get f = 0 := by cases f <;> rfl
    have := run_events_global b f evs _ _ h (by rw [h0]; decide)
    rw [this, h0, Nat.zero_add]
  exact ⟨key Counter.in_rpcs, key Counter.in_bad_rpcs, key Counter.out_rpc_errors,
    key Counter.out_notifications, fun a s w1 w2 n =>
      ⟨ncm_session_add_global b a s w1 w2, ncm_session_del_global b s w1 w2,
        ncm_bad_hello_global b s w1 w2, ncm_session_get_notification_global b s w1 w2 n⟩⟩

/-- C4, amended, at a concrete input: a session is opened, issues three RPCs,
one malformed RPC and two notifications, and is closed; the global counters
then read 3, 1, 0 and 2. -/
theorem global_counters_count_calls_witness :
    ∃ w, run_events ex_build ex_events (ncm_init 0) = Except.ok w ∧
      w.stats.global_stats.in_rpcs = 3 ∧ w.stats.global_stats.in_bad_rpcs = 1 ∧
      w.stats.global_stats.out_rpc_errors = 0 ∧
      w.stats.global_stats.out_notifications = 2 := by
  have hrun : run_events ex_build ex_events (ncm_init 0) = Except.ok
      { stats :=
          { sessions := [ex_s1],
            session_stats :=
              [{ in_rpcs := 3, in_bad_rpcs := 1, out_rpc_errors := 0,
                 out_notifications := 2 }],
            session_count := 0, netconf_start_time := 0, in_bad_hellos := 0,
            in_sessions := 1, dropped_sessions := 0,
            global_stats :=
              { in_rpcs := 3, in_bad_rpcs := 1, out_rpc_errors := 0, out_notifications := 2 },
            lock := false },
        log := [] } := rfl
  obtain ⟨h1, h2, h3, h4, -⟩ := global_counters_count_calls ex_build 0 ex_events _ hrun
  exact ⟨_, hrun, h1, h2, h3, h4⟩

/-- C5: for a session whose transport kind is not monitored, the four counter
recorders and `ncm_session_del` return the state they were given,
`ncm_session_add` returns with the monitoring state unchanged (it only logs a
warning), so the registered sessions are the same as before, and
`ncm_session_get_notification` returns 0 and the state it was given. -/
theorem unmonitored_no_effect (b : Build) (a : AllocEnv) (session : nc_session) (w : World)
    (hm : ncm_is_monitored b session = false) :
    ncm_session_rpc b session w = Except.ok w ∧
    ncm_session_bad_rpc b session w = Except.ok w ∧
    ncm_session_rpc_reply_error b session w = Except.ok w ∧
    ncm_session_notification b session w = Except.ok w ∧
    (∃ w', ncm_session_add b a session w = Except.ok w' ∧ w'.stats = w.stats ∧
      registered_ids w'.stats = registered_ids w.stats) ∧
    ncm_session_del b session w = Except.ok w ∧
    ncm_session_get_notification b session w = Except.ok (0, w) := by
  refine ⟨?_, ?_, ?_, ?_,
    ⟨w.logMsg (LogMsg.WRN_not_monitored session.id), ?_, rfl, rfl⟩, ?_, ?_⟩
  · simp only [ncm_session_rpc, ncm_session_count, hm, if_true]
  · simp only [ncm_session_bad_rpc, ncm_session_count, hm, if_true]
  · simp only [ncm_session_rpc_reply_error, ncm_session_count, hm, if_true]
  · simp only [ncm_session_notification, ncm_session_count, hm, if_true]
  · simp only [ncm_session_add, hm, if_true]
  · simp only [ncm_session_del, hm, if_true]
  · simp only [ncm_session_get_notification, hm, if_true]

/-- C5, at a concrete input: a session on a file-descriptor transport in the
registry 1, 2, 3. -/
theorem unmonitored_no_effect_witness :
    ncm_session_rpc ex_build ex_fd ex_three = Except.ok ex_three ∧
    ncm_session_del ex_build ex_fd ex_three = Except.ok ex_three ∧
    ncm_session_get_notification ex_build ex_fd ex_three = Except.ok (0, ex_three) := by
  obtain ⟨h1, -, -, -, -, h6, h7⟩ := unmonitored_no_effect ex_build ex_alloc ex_fd ex_three rfl
  exact ⟨h1, h6, h7⟩

/-- C6 as stated fails: when `dropped_sessions` holds `2^32 - 1`, opening a
session and closing it after a kill leaves `dropped_sessions = 0`, not one
more; and with `2^32 - 1` registered entries the opening call has no resulting
state at all. -/
theorem add_then_del_wraps :
    Valid ex_full.stats ∧ (registered_ids ex_full.stats).Nodup ∧
    ex_s2.id ∉ registered_ids ex_full.stats ∧ ncm_is_monitored ex_build ex_s2 = true ∧
    ex_s2.term_reason = NC_SESSION_TERM_REASON.NC_SESSION_TERM_KILLED ∧
    (∃ w1 w2, ncm_session_add ex_build ex_alloc ex_s2 ex_full = Except.ok w1 ∧
      ncm_session_del ex_build ex_s2 w1 = Except.ok w2 ∧
      ex_full.stats.dropped_sessions = 4294967295 ∧ w2.stats.dropped_sessions = 0 ∧
      w2.stats.dropped_sessions ≠ ex_full.stats.dropped_sessions + 1) ∧
    Valid ex_crowded.stats ∧ (registered_ids ex_crowded.stats).Nodup ∧
    ex_s0.id ∉ registered_ids ex_crowded.stats ∧ ncm_is_monitored ex_build ex_s0 = true ∧
    ncm_session_add ex_build ex_alloc ex_s0 ex_crowded
      = Except.error Fault.out_of_bounds :=
  ⟨by decide, by decide, by decide, rfl, rfl, ⟨_, _, rfl, rfl, rfl, rfl, by decide⟩,
    ex_crowded_valid, ex_crowded_nodup.1, ex_crowded_nodup.2, rfl,
    ncm_session_add_count_wraps ex_build ex_alloc ex_s0 ex_crowded rfl rfl rfl rfl rfl⟩

/-- C6, amended: in a state with pairwise distinct registered ids and fewer
than `2^32 - 1` entries, opening a monitored session whose id is not yet
registered (both `realloc` calls succeeding) and then closing it with
termination reason `r` gives back the same `session_count` and the same
entries, without that session; `dropped_sessions` is unchanged when `r` is
`NC_SESSION_TERM_CLOSED` and is incremented by one modulo `2^32` for every
other `r`. -/
theorem add_then_del_restores (b : Build) (a : AllocEnv) (session : nc_session)
    (r : NC_SESSION_TERM_REASON) (w : World)
    (hv : Valid w.stats) (hd : (registered_ids w.stats).Nodup)
    (hm : ncm_is_monitored b session = true)
    (hnew : session.id ∉ registered_ids w.stats)
    (h1 : a.sessions_ok = true) (h2 : a.session_stats_ok = true)
    (hc : w.stats.session_count + 1 < 4294967296) :
    ∃ w1 w2, ncm_session_add b a session w = Except.ok w1 ∧
      ncm_session_del b { session with term_reason := r } w1 = Except.ok w2 ∧
      w2.stats.session_count = w.stats.session_count ∧
      w2.stats.sessions.take w.stats.session_count
        = w.stats.sessions.take w.stats.session_count ∧
      w2.stats.session_stats.take w.stats.session_count
        = w.stats.session_stats.take w.stats.session_count ∧
      session.id ∉ registered_ids w2.stats ∧
      (r = NC_SESSION_TERM_REASON.NC_SESSION_TERM_CLOSED →
        w2.stats.dropped_sessions = w.stats.dropped_sessions) ∧
      (r ≠ NC_SESSION_TERM_REASON.NC_SESSION_TERM_CLOSED →
        w2.stats.dropped_sessions = (w.stats.dropped_sessions + 1) % 4294967296) := by
  obtain ⟨w1, w2, ha, hdl, hcnt, hs, hcs, hab, hdr⟩ :=
    add_then_del_spec b a session r w hv hd hm hnew h1 h2 hc
  refine ⟨w1, w2, ha, hdl, hcnt, hs, hcs, hab, ?_, ?_⟩
  · intro hr; rw [hdr, if_pos hr]
  · intro hr; rw [hdr, if_neg hr]

/-- C6, amended, at a concrete input: session 7 is opened in the registry
1, 2, 3 and closed after a timeout; the registry is 1, 2, 3 again and
`dropped_sessions` went from 1 to 2. -/
theorem add_then_del_restores_witness :
    ∃ w1 w2, ncm_session_add ex_build ex_alloc ex_s7 ex_three = Except.ok w1 ∧
      ncm_session_del ex_build
        { ex_s7 with term_reason := NC_SESSION_TERM_REASON.NC_SESSION_TERM_TIMEOUT } w1
        = Except.ok w2 ∧
      w2.stats.session_count = 3 ∧
      w2.stats.sessions.take 3 = [ex_s1, ex_s2, ex_s3] ∧
      w2.stats.dropped_sessions = 2 := by
  obtain ⟨w1, w2, ha, hdl, hcnt, hs, -, -, -, hdr⟩ :=
    add_then_del_restores ex_build ex_alloc ex_s7
      NC_SESSION_TERM_REASON.NC_SESSION_TERM_TIMEOUT ex_three
      (by decide) (by decide) rfl (by decide) rfl rfl (by decide)
  exact ⟨w1, w2, ha, hdl, hcnt, hs, hdr (by decide)⟩

/-- C7: in a state all of whose registered sessions have a supported transport
kind, when the callback hands back a tree (the root is created, the
capabilities are listed and validation succeeds), the tree has a "sessions"
section if and only if `session_count > 0`; that section has one "session" row
per registry entry, in registry order, keyed by the session id, whose in-rpcs,
in-bad-rpcs, out-rpc-errors and out-notifications leaves are the decimal text
of the counters of that entry; and the "statistics" section is present and
carries the decimal text of `in_bad_hellos`, `in_sessions`, `dropped_sessions`
and the four global counters. -/
theorem np2srv_ncm_oper_cb_renders (b : Build) (env : RenderEnv) (w : World)
    (caps : List String) (hv : Valid w.stats)
    (hsup : ∀ s ∈ w.stats.sessions.take w.stats.session_count, ncm_is_monitored b s = true)
    (hp : env.lyd_new_path_ok = true) (hcaps : env.cpblts = some caps)
    (hval : env.lyd_validate_ok = true) :
    ∃ root w', np2srv_ncm_oper_cb b env w = Except.ok (some root, w') ∧
      ((root.child "sessions").isSome ↔ 0 < w.stats.session_count) ∧
      (∀ sess, root.child "sessions" = some sess →
        sess.children.length = w.stats.session_count ∧
        ∀ i s c, i < w.stats.session_count → w.stats.sessions[i]? = some s →
          w.stats.session_stats[i]? = some c →
          ∃ row, sess.children[i]? = some row ∧ row.name = "session" ∧
            row.keys = [sprintf_u s.id] ∧
            row.leaf "in-rpcs" = some (toString c.in_rpcs) ∧
            row.leaf "in-bad-rpcs" = some (toString c.in_bad_rpcs) ∧
            row.leaf "out-rpc-errors" = some (toString c.out_rpc_errors) ∧
            row.leaf "out-notifications" = some (toString c.out_notifications)) ∧
      (∃ st, root.child "statistics" = some st ∧
        st.leaf "in-bad-hellos" = some (toString w.stats.in_bad_hellos) ∧
        st.leaf "in-sessions" = some (toString w.stats.in_sessions) ∧
        st.leaf "dropped-sessions" = some (toString w.stats.dropped_sessions) ∧
        st.leaf "in-rpcs" = some (toString w.stats.global_stats.in_rpcs) ∧
        st.leaf "in-bad-rpcs" = some (toString w.stats.global_stats.in_bad_rpcs) ∧
        st.leaf "out-rpc-errors" = some (toString w.stats.global_stats.out_rpc_errors) ∧
        st.leaf "out-notifications"
          = some (toString w.stats.global_stats.out_notifications)) := by
  apply oper_cb_tree b env w caps hv _ hp hcaps hval
  intro i s hi hs
  apply hsup s
  rw [List.mem_iff_getElem?]
  exact ⟨i, by rw [List.getElem?_take]; simp [hi, hs]⟩

/-- C7, at a concrete input: the registry 1, 2, 3 is rendered with a "sessions"
section of three rows and a "statistics" section. -/
theorem np2srv_ncm_oper_cb_renders_witness :
    ∃ root w', np2srv_ncm_oper_cb ex_build ex_env ex_three = Except.ok (some root, w') ∧
      ((root.child "sessions").isSome ↔ 0 < ex_three.stats.session_count) ∧
      (∀ sess, root.child "sessions" = some sess → sess.children.length = 3) ∧
      (∃ st, root.child "statistics" = some st ∧
        st.leaf "in-rpcs" = some (toString ex_three.stats.global_stats.in_rpcs)) := by
  obtain ⟨root, w', h1, h2, h3, st, h4, -, -, -, h5, -⟩ :=
    np2srv_ncm_oper_cb_renders ex_build ex_env ex_three
      ["urn:ietf:params:netconf:base:1.1"] (by decide) (by decide) rfl rfl rfl
  exact ⟨root, w', h1, h2, fun sess hs => (h3 sess hs).1, st, h4, h5⟩

/-- C8 as stated fails: for a session on a transport kind that is not
monitored `ncm_bad_hello` returns without counting, and when `in_bad_hellos`
holds `2^32 - 1` a counted bad hello leaves it at 0. -/
theorem ncm_bad_hello_skips_unmonitored :
    ncm_is_monitored ex_build ex_fd = false ∧
    ncm_bad_hello ex_build ex_fd ex_one = Except.ok ex_one ∧
    ex_one.stats.in_bad_hellos ≠ ex_one.stats.in_bad_hellos + 1 ∧
    ncm_is_monitored ex_build ex_s1 = true ∧
    (∃ w', ncm_bad_hello ex_build ex_s1 ex_full = Except.ok w' ∧
      ex_full.stats.in_bad_hellos = 4294967295 ∧ w'.stats.in_bad_hellos = 0 ∧
      w'.stats.in_bad_hellos ≠ ex_full.stats.in_bad_hellos + 1) :=
  ⟨rfl, rfl, by decide, rfl, _, rfl, rfl, rfl, by decide⟩

/-- C8, amended: in a state whose mutex is free, `ncm_bad_hello` for a session
whose transport kind is monitored increments `in_bad_hellos` by one modulo
`2^32` and changes nothing else; for a session whose transport kind is not
monitored it returns the state it was given. -/
theorem ncm_bad_hello_effect (b : Build) (session : nc_session) (w : World)
    (hl : w.stats.lock = false) :
    (ncm_is_monitored b session = true →
      ncm_bad_hello b session w = Except.ok
        { w with stats := { w.stats with
            in_bad_hellos := (w.stats.in_bad_hellos + 1) % 4294967296 } }) ∧
    (ncm_is_monitored b session = false → ncm_bad_hello b session w = Except.ok w) := by
  constructor
  · intro hm
    simp only [ncm_bad_hello, hm, pthread_mutex_lock, hl, Bool.true_eq_false,
      Bool.false_eq_true, if_false, pthread_mutex_unlock, u32_inc]
  · intro hm
    simp only [ncm_bad_hello, hm, if_true]

/-- C8, amended, at a concrete input: a bad hello of an SSH session takes
`in_bad_hellos` from 1 to 2. -/
theorem ncm_bad_hello_effect_witness :
    ncm_bad_hello ex_build ex_s1 ex_three = Except.ok
      { ex_three with stats := { ex_three.stats with in_bad_hellos := 2 } } :=
  (ncm_bad_hello_effect ex_build ex_s1 ex_three rfl).1 rfl

/-- C9: the code at the failing inputs.  When the first `realloc` fails,
`ncm_session_add` returns with `session_count` already incremented to 2 while
both arrays still have one slot; when the second fails, `session_count` is 2,
`sessions` has two slots and `session_stats` one. -/
theorem ncm_session_add_failure_keeps_count :
    Valid ex_one.stats ∧ ncm_is_monitored ex_build ex_s2 = true ∧
    ex_one.stats.session_count = 1 ∧
    (∃ w', ncm_session_add ex_build ex_alloc_fail_sessions ex_s2 ex_one = Except.ok w' ∧
      w'.stats.session_count = 2 ∧ w'.stats.sessions.length = 1 ∧
      w'.stats.session_stats.length = 1 ∧ w'.log = [LogMsg.EMEM]) ∧
    (∃ w', ncm_session_add ex_build ex_alloc_fail_stats ex_s2 ex_one = Except.ok w' ∧
      w'.stats.session_count = 2 ∧ w'.stats.sessions.length = 2 ∧
      w'.stats.session_stats.length = 1 ∧ w'.log = [LogMsg.EMEM]) :=
  ⟨by decide, rfl, rfl, ⟨_, rfl, rfl, rfl, rfl, rfl⟩, ⟨_, rfl, rfl, rfl, rfl, rfl⟩⟩

/-- C10: the code at the failing input.  Session 7 is monitored and not in the
registry 1, 2, 3.  `ncm_session_rpc` for it logs the internal error and
increments the `in_rpcs` of entry 0, the counters of session 1, from 3 to 4;
`ncm_session_del` for it logs the internal error and removes entry 0, leaving
the registry 2, 3. -/
theorem lookup_miss_hits_first_entry :
    Valid ex_three.stats ∧ (registered_ids ex_three.stats).Nodup ∧
    ncm_is_monitored ex_build ex_s7 = true ∧ ex_s7.id ∉ registered_ids ex_three.stats ∧
    (∃ w' c, ncm_session_rpc ex_build ex_s7 ex_three = Except.ok w' ∧
      w'.log = [LogMsg.EINT] ∧
      ex_three.stats.sessions[0]? = some ex_s1 ∧ w'.stats.session_stats[0]? = some c ∧
      c.in_rpcs = 4) ∧
    (∃ w', ncm_session_del ex_build ex_s7 ex_three = Except.ok w' ∧
      w'.log = [LogMsg.EINT] ∧
      w'.stats.session_count = 2 ∧ w'.stats.sessions.take 2 = [ex_s2, ex_s3]) :=
  ⟨by decide, by decide, rfl, by decide, ⟨_, _, rfl, rfl, rfl, rfl, rfl⟩,
    ⟨_, rfl, rfl, rfl, rfl⟩⟩

/-- C11: the code at the failing inputs.  From a state whose mutex is free,
`ncm_session_add` returns with the mutex still held when either `realloc`
fails. -/
theorem ncm_session_add_failure_keeps_lock :
    ex_one.stats.lock = false ∧ ncm_is_monitored ex_build ex_s2 = true ∧
    (∃ w', ncm_session_add ex_build ex_alloc_fail_sessions ex_s2 ex_one = Except.ok w' ∧
      w'.stats.lock = true) ∧
    (∃ w', ncm_session_add ex_build ex_alloc_fail_stats ex_s2 ex_one = Except.ok w' ∧
      w'.stats.lock = true) :=
  ⟨rfl, rfl, ⟨_, rfl, rfl⟩, ⟨_, rfl, rfl⟩⟩

end Ncm
